import Mathlib

/-!
# Trees: the scriptable vertex-array manager (vertex_array.cpp)

A shallow embedding of `src/vertex_array.cpp`.

* `GLfloat` and `lua_Number` values are rationals. The conversion of a
  `lua_Number` (a double) to a `GLfloat` (a 32-bit float), which the code
  performs wherever it stores a Lua number in a float, is the parameter
  `LuaLib.to_GLfloat`; arithmetic on `GLfloat` values is exact.
* `glm::normalize` is a parameter of every definition that needs it.
* The Lua stack of a C function is the list of its arguments (index 1 first).
* An outcome is a normal return, a Lua error (a non-local exit), or undefined
  behaviour of the C program (a read past the end of an array, a call through a
  NULL callback, raw table access to a value that is not a table).
* OpenGL is a trace of the commands issued, with their arguments.
-/

namespace Trees

/-! ## Data model -/

/-- The enum `Mode`, constructors in declaration order (values 0, 1, 2, 3). -/
inductive Mode
  | mode_triangle_strip
  | mode_triangles
  | mode_points
  | mode_lines
  deriving DecidableEq, Repr

/-- The integer value of an enumerator of `Mode`. -/
def Mode.toNat : Mode → Nat
  | .mode_triangle_strip => 0
  | .mode_triangles => 1
  | .mode_points => 2
  | .mode_lines => 3

/-- A `glm::vec3`. -/
structure Vec3 where
  x : ℚ
  y : ℚ
  z : ℚ
  deriving DecidableEq

/-- Component-wise difference, `a - b` of glm. -/
def Vec3.sub (a b : Vec3) : Vec3 := ⟨a.x - b.x, a.y - b.y, a.z - b.z⟩

/-- The product `glm::cross(a, b)`. -/
def Vec3.cross (a b : Vec3) : Vec3 :=
  ⟨a.y * b.z - b.y * a.z, a.z * b.x - b.z * a.x, a.x * b.y - b.x * a.y⟩

/-- The product `s * v` of a scalar and a vector. -/
def Vec3.scale (s : ℚ) (v : Vec3) : Vec3 := ⟨s * v.x, s * v.y, s * v.z⟩

/-- The three components in order, as `n[0]`, `n[1]`, `n[2]`. -/
def Vec3.toList (v : Vec3) : List ℚ := [v.x, v.y, v.z]

/-- Modelled from the spec: the `Array` of cstructs (cstructs/cstructs.h is not
among the sources) is an ordered, growable sequence of items; `array__new`
gives an empty one whatever the capacity asked for, `array__new_val` appends
one item at the end, `array__for` visits the items by increasing index and
`count` is the number of items. -/
abbrev CArray := List ℚ

/-- The struct `VertexArray`: state owned by one instance. -/
structure VertexArray where
  vao : Nat
  vertices_vbo : Nat
  normals_vbo : Nat
  num_pts : Nat
  draw_mode : Mode
  color : Vec3
  deriving DecidableEq

/-! ## Normal reconstruction (the loop of `gl_setup_new_vertex_array`) -/

/-- The loop state: the array `n_vecs` and the running `sign`. -/
structure NormalState where
  n_vecs : CArray
  sign : ℚ
  deriving DecidableEq

/-- One iteration of the `array__for` loop, at item index `j`, where `pt`
points at item `j` of `v_pts`. A read outside the items of `v_pts` is
undefined behaviour: the result is `none`. -/
def normals_step (draw_mode : Mode) (normalize : Vec3 → Vec3) (v_pts : CArray)
    (st : NormalState) (j : Nat) : Option NormalState :=
  if j % 3 ≠ 0 then some st
  else if j < 6 then some { st with n_vecs := st.n_vecs ++ [0, 0, 0] }
  else
    match v_pts[j - 6]?, v_pts[j - 5]?, v_pts[j - 4]?,
          v_pts[j - 3]?, v_pts[j - 2]?, v_pts[j - 1]?,
          v_pts[j]?, v_pts[j + 1]?, v_pts[j + 2]? with
    | some a0, some a1, some a2, some b0, some b1, some b2, some c0, some c1, some c2 =>
      let pt0 : Vec3 := ⟨a0, a1, a2⟩
      let pt1 : Vec3 := ⟨b0, b1, b2⟩
      let pt2 : Vec3 := ⟨c0, c1, c2⟩
      let n := Vec3.scale st.sign (normalize (Vec3.cross (pt1.sub pt0) (pt2.sub pt1)))
      some { n_vecs := st.n_vecs ++ n.toList,
             sign := if draw_mode = Mode.mode_triangle_strip then st.sign * (-1) else st.sign }
    | _, _, _, _, _, _, _, _, _ => none

/-- The whole loop: `j` runs over `0 .. count - 1`, starting from an empty
`n_vecs` and `sign = 1`. -/
def compute_normals (draw_mode : Mode) (normalize : Vec3 → Vec3) (v_pts : CArray) :
    Option CArray :=
  ((List.range v_pts.length).foldlM (normals_step draw_mode normalize v_pts)
    { n_vecs := [], sign := 1 }).map NormalState.n_vecs

/-! ## The Lua side: values, errors and the auxiliary-library calls used -/

/-- A Lua value as the C API sees it. A table is given by its items at the
integer keys 1, 2, ...: item `i` is at position `i - 1`, `nil` marks a hole and
every key past the end is absent. A full userdata carries the name of its
metatable in the registry and the address of its block. -/
inductive LuaValue
  | nil
  | boolean (b : Bool)
  | number (n : ℚ)
  | str (s : String)
  | table (items : List LuaValue)
  | userdata (tname : String) (addr : Nat)
  | func (id : Nat)

/-- What the code needs and is not in this repository. From the Lua runtime:
the conversion of a string to a number (`none` when the string is not a
numeral), the conversion of a number to a string, and which values that are
not tables have an `__index` metafield. From C: the implicit conversion of a
`lua_Number` (a double) to a `GLfloat` (a 32-bit float), which rounds to the
nearest representable value. -/
structure LuaLib where
  str2num : String → Option ℚ
  num2str : ℚ → String
  has_index : LuaValue → Bool
  to_GLfloat : ℚ → ℚ

/-- A Lua error raised by the code: `argerror narg msg` is
`luaL_argerror(L, narg, msg)`; `traceback msg` is `lua_traceback` called with
`msg` on top of the stack (the message followed by the call trace). -/
inductive LuaError
  | argerror (narg : Nat) (extramsg : String)
  | traceback (msg : String)
  deriving DecidableEq, Repr

/-- The result of a step that does not touch the world. -/
inductive Checked (α : Type)
  | ok (a : α)
  | raise (e : LuaError)
  | undefined

/-- The value at an acceptable stack index, `none` for an index past the top. -/
def lua_arg (args : List LuaValue) (idx : Nat) : Option LuaValue :=
  if idx = 0 then none else args[idx - 1]?

/-- The macro `lua_isnil`. -/
def lua_isnil : Option LuaValue → Bool
  | some .nil => true
  | _ => false

/-- The macro `lua_istable`. -/
def lua_istable : Option LuaValue → Bool
  | some (.table _) => true
  | _ => false

/-- The call `lua_tonumberx(L, idx, &isnum)`: `some x` when `isnum` is set
(a number, or a string convertible to one). -/
def lua_tonumberx (lib : LuaLib) : Option LuaValue → Option ℚ
  | some (.number n) => some n
  | some (.str s) => lib.str2num s
  | _ => none

/-- The call `lua_isnumber`: a number or a string convertible to a number. -/
def lua_isnumber (lib : LuaLib) (v : Option LuaValue) : Bool :=
  (lua_tonumberx lib v).isSome

/-- The macro `lua_tonumber`: 0 when the value is not convertible. -/
def lua_tonumber (lib : LuaLib) (v : Option LuaValue) : ℚ :=
  (lua_tonumberx lib v).getD 0

/-- The call `lua_isstring`: a string or a number. -/
def lua_isstring : Option LuaValue → Bool
  | some (.str _) => true
  | some (.number _) => true
  | _ => false

/-- The call `lua_rawgeti(L, index, i)` on the items of a table. -/
def lua_rawgeti (items : List LuaValue) (i : Nat) : LuaValue :=
  if i = 0 then .nil else items.getD (i - 1) .nil

/-- The name `luaL_typename` gives for a stack slot. -/
def luaL_typename : Option LuaValue → String
  | none => "no value"
  | some .nil => "nil"
  | some (.boolean _) => "boolean"
  | some (.number _) => "number"
  | some (.str _) => "string"
  | some (.table _) => "table"
  | some (.userdata _ _) => "userdata"
  | some (.func _) => "function"

/-- The macro `luaL_checkstring(L, narg)`: the string, the numeral of a
number, or an argument error for `narg`. -/
def luaL_checkstring (lib : LuaLib) (args : List LuaValue) (narg : Nat) : Checked String :=
  match lua_arg args narg with
  | some (.str s) => .ok s
  | some (.number n) => .ok (lib.num2str n)
  | v => .raise (.argerror narg ("string expected, got " ++ luaL_typename v))

/-- The call `luaL_checkudata(L, narg, tname)`: the address of the block. -/
def luaL_checkudata (args : List LuaValue) (narg : Nat) (tname : String) : Checked Nat :=
  match lua_arg args narg with
  | some (.userdata t addr) =>
    if t = tname then .ok addr
    else .raise (.argerror narg (tname ++ " expected, got userdata"))
  | v => .raise (.argerror narg (tname ++ " expected, got " ++ luaL_typename v))

/-- A Lua string seen through a `const char *`: the bytes before the first
NUL. -/
def c_str (s : String) : String := String.mk (s.data.takeWhile (fun c => c ≠ Char.ofNat 0))

/-- The function `strcmp` of string.h, on the C strings the two buffers hold:
0 when they are equal. The code only tests the result against 0, so every
non-zero result is given as 1. -/
def strcmp (a b : String) : Int :=
  if c_str a = c_str b then 0 else 1

/-- The macro `vertex_array_metatable`. -/
def vertex_array_metatable : String := "Trees.VertexArray"

/-! ## OpenGL and the state of the process -/

/-- The primitive topologies passed to `glDrawArrays`. -/
inductive GLenum
  | GL_TRIANGLE_STRIP
  | GL_TRIANGLES
  | GL_POINTS
  | GL_LINES
  deriving DecidableEq, Repr

/-- A command sent to OpenGL, or a call through one of the two transform
callbacks, with the arguments the code passes. `glBindBuffer` and
`glBufferData` always have target `GL_ARRAY_BUFFER`, `glBufferData` usage
`GL_STATIC_DRAW`, `glVertexAttribPointer` type `GL_FLOAT` unnormalised. -/
inductive GLCmd
  | glUseProgram (program : Nat)
  | call_mvp_callback (fn : Nat) (loc : Int)
  | call_normal_xform_callback (fn : Nat) (loc : Int)
  | glUniform3fv (loc : Int) (count : Nat) (value : Vec3)
  | glBindVertexArray (vao : Nat)
  | glDrawArrays (mode : GLenum) (first : Nat) (count : Nat)
  | glPointSize (size : ℚ)
  | glGenVertexArrays (n : Nat) (name : Nat)
  | glGenBuffers (n : Nat) (name : Nat)
  | glBindBuffer (buffer : Nat)
  | glBufferData (size : Nat) (data : CArray)
  | glEnableVertexAttribArray (index : Nat)
  | glVertexAttribPointer (index : Nat) (size : Nat) (stride : Nat) (offset : Nat)
  deriving DecidableEq

/-- The state the code reads and writes: the file-level statics, the userdata
blocks allocated so far (by address), the commands issued so far (oldest
first) and the numbers of vertex-array and buffer names OpenGL has handed
out. -/
structure World where
  program : Nat
  mvp_loc : Int
  normal_xform_loc : Int
  color_loc : Int
  mvp_callback : Option Nat
  normal_xform_callback : Option Nat
  heap : List VertexArray
  gl : List GLCmd
  vao_names : Nat
  buffer_names : Nat
  deriving DecidableEq

/-- Append commands to the trace. -/
def World.emit (w : World) (cmds : List GLCmd) : World := { w with gl := w.gl ++ cmds }

/-- The result of a Lua C function: a return with the new world, a Lua error
with the world as it is when the error is raised, or undefined behaviour. -/
inductive Outcome (α : Type)
  | ok (a : α) (w : World)
  | raise (e : LuaError) (w : World)
  | undefined

/-- Continue in world `w` after a step that does not touch it. -/
def Checked.andThen {α β : Type} (c : Checked α) (w : World) (k : α → Outcome β) : Outcome β :=
  match c with
  | .ok a => k a
  | .raise e => .raise e w
  | .undefined => .undefined

/-- The size in bytes of a `GLfloat`. -/
def sizeof_GLfloat : Nat := 4

/-- The vertex attribute indexes `v_position`, `color`, `normal`. -/
def v_position : Nat := 0

/-- See `v_position`. -/
def normal : Nat := 2

/-- The function `set_array_as_buffer_data`. -/
def set_array_as_buffer_data (array : CArray) : GLCmd :=
  .glBufferData (array.length * sizeof_GLfloat) array

/-- The function `gl_setup_new_vertex_array`: the instance with its handles
and `num_pts` set, and the new world; `none` when the normals loop reads past
the items of `v_pts`. The check `glhelp__error_check` is not modelled. -/
def gl_setup_new_vertex_array (normalize : Vec3 → Vec3) (v_array : VertexArray)
    (v_pts : CArray) (w : World) : Option (VertexArray × World) :=
  match compute_normals v_array.draw_mode normalize v_pts with
  | none => none
  | some n_vecs =>
    let vao := w.vao_names + 1
    let vertices_vbo := w.buffer_names + 1
    let normals_vbo := w.buffer_names + 2
    some ({ v_array with
              vao := vao, vertices_vbo := vertices_vbo,
              num_pts := v_pts.length / 3, normals_vbo := normals_vbo },
          { w.emit [.glGenVertexArrays 1 vao, .glBindVertexArray vao,
                    .glGenBuffers 1 vertices_vbo, .glBindBuffer vertices_vbo,
                    set_array_as_buffer_data v_pts,
                    .glEnableVertexAttribArray v_position,
                    .glVertexAttribPointer v_position 3 0 0,
                    .glGenBuffers 1 normals_vbo, .glBindBuffer normals_vbo,
                    set_array_as_buffer_data n_vecs,
                    .glEnableVertexAttribArray normal,
                    .glVertexAttribPointer normal 3 0 0] with
            vao_names := w.vao_names + 1, buffer_names := w.buffer_names + 2 })

/-! ## The Lua C functions -/

/-- The loop of `c_array_from_lua_array`; `items` holds the table items at the
indices `i`, `i + 1`, ... still to visit (past its end `lua_rawgeti` pushes
nil) and `arr` the floats collected so far. The assignment of `lua_tonumber`
to the new `GLfloat` item converts the double to a float. -/
def c_array_loop (lib : LuaLib) : List LuaValue → CArray → Checked CArray
  | [], arr => .ok arr
  | v :: rest, arr =>
    if lua_isnil (some v) then .ok arr
    else if !lua_isnumber lib (some v) then .raise (.traceback "Expected a flat array.")
    else c_array_loop lib rest (arr ++ [lib.to_GLfloat (lua_tonumber lib (some v))])

/-- The function `c_array_from_lua_array` on the value at stack index
`index`. Raw access (`lua_rawlen`, `lua_rawgeti`) to a value that is not a
table is undefined. -/
def c_array_from_lua_array (lib : LuaLib) (args : List LuaValue) (index : Nat) :
    Checked CArray :=
  match lua_arg args index with
  | some (.table items) => c_array_loop lib items []
  | _ => .undefined

/-- The function `luaL_checkindexable`. -/
def luaL_checkindexable (lib : LuaLib) (args : List LuaValue) (narg : Nat) : Checked Unit :=
  if lua_istable (lua_arg args narg) then .ok ()
  else
    match lua_arg args narg with
    | some v =>
      if lib.has_index v then .ok ()
      else .raise (.argerror narg "expected an indexable value such as a table")
    | none => .raise (.argerror narg "expected an indexable value such as a table")

/-- The message of the two mode errors. -/
def mode_msg : String :=
  "Expected mode to be 'triangle strip', 'triangles', 'points', or 'lines'."

/-- The colour loop of `vertex_array__new` (`i` = 1, 2, 3) on the items of the
table at stack index 4. Each component is stored in a `glm::vec3`, whose
components are floats: the assignment converts the double to a float. -/
def read_color (lib : LuaLib) (items : List LuaValue) : Checked Vec3 :=
  match lua_tonumberx lib (some (lua_rawgeti items 1)) with
  | none => .raise (.argerror 4 "Expected color to contain numeric values")
  | some r =>
    match lua_tonumberx lib (some (lua_rawgeti items 2)) with
    | none => .raise (.argerror 4 "Expected color to contain numeric values")
    | some g =>
      match lua_tonumberx lib (some (lua_rawgeti items 3)) with
      | none => .raise (.argerror 4 "Expected color to contain numeric values")
      | some b => .ok ⟨lib.to_GLfloat r, lib.to_GLfloat g, lib.to_GLfloat b⟩

/-- The part of `vertex_array__new` from the colour check on, once the points
and the mode are known. The default `vec3(0.494, 0.349, 0.204)` is built from
double literals, each converted to a float. -/
def new_finish (lib : LuaLib) (normalize : Vec3 → Vec3) (args : List LuaValue)
    (v_pts : CArray) (draw_mode : Mode) (w : World) : Outcome LuaValue :=
  let color : Checked Vec3 :=
    match lua_arg args 4 with
    | some (.table items) => read_color lib items
    | _ => .ok ⟨lib.to_GLfloat (494 / 1000), lib.to_GLfloat (349 / 1000),
                lib.to_GLfloat (204 / 1000)⟩
  color.andThen w fun color =>
    let v_array : VertexArray :=
      { vao := 0, vertices_vbo := 0, normals_vbo := 0, num_pts := 0,
        draw_mode := draw_mode, color := color }
    match gl_setup_new_vertex_array normalize v_array v_pts w with
    | none => .undefined
    | some (v_array, w) =>
      .ok (.userdata vertex_array_metatable w.heap.length)
        { w with heap := w.heap ++ [v_array] }

/-- The Lua C function `vertex_array__new`; the stack holds self, the points,
the mode name, the colour and the point size. The point size is stored in a
`GLfloat` before it is passed to `glPointSize`. -/
def vertex_array__new (lib : LuaLib) (normalize : Vec3 → Vec3) (args : List LuaValue)
    (w : World) : Outcome LuaValue :=
  (luaL_checkindexable lib args 2).andThen w fun _ =>
  (c_array_from_lua_array lib args 2).andThen w fun v_pts =>
  (luaL_checkstring lib args 3).andThen w fun mode_str =>
  if strcmp mode_str "triangle strip" = 0 then
    new_finish lib normalize args v_pts .mode_triangle_strip w
  else if strcmp mode_str "triangles" = 0 then
    new_finish lib normalize args v_pts .mode_triangles w
  else if strcmp mode_str "points" = 0 then
    match lua_tonumberx lib (lua_arg args 5) with
    | some point_size =>
      new_finish lib normalize args v_pts .mode_points
        (w.emit [.glPointSize (lib.to_GLfloat point_size)])
    | none => new_finish lib normalize args v_pts .mode_points w
  else if strcmp mode_str "lines" = 0 then
    new_finish lib normalize args v_pts .mode_lines w
  else .raise (.argerror 3 mode_msg) w

/-- The local array `gl_mode` of `get_self_and_mode`. -/
def gl_mode : List GLenum :=
  [.GL_TRIANGLE_STRIP, .GL_TRIANGLES, .GL_POINTS, .GL_LINES]

/-- The function `get_self_and_mode`: the instance the first argument points
to and the mode to draw with. An address outside the heap is undefined. -/
def get_self_and_mode (lib : LuaLib) (args : List LuaValue) (w : World) :
    Checked (VertexArray × GLenum) :=
  match luaL_checkudata args 1 vertex_array_metatable with
  | .raise e => .raise e
  | .undefined => .undefined
  | .ok addr =>
    match w.heap[addr]? with
    | none => .undefined
    | some v_array =>
      match gl_mode[v_array.draw_mode.toNat]? with
      | none => .undefined
      | some mode =>
        if lua_isstring (lua_arg args 2) then
          match luaL_checkstring lib args 2 with
          | .raise e => .raise e
          | .undefined => .undefined
          | .ok mode_name =>
            if strcmp mode_name "triangle strip" = 0 then .ok (v_array, .GL_TRIANGLE_STRIP)
            else if strcmp mode_name "triangles" = 0 then .ok (v_array, .GL_TRIANGLES)
            else if strcmp mode_name "points" = 0 then .ok (v_array, .GL_POINTS)
            else if strcmp mode_name "lines" = 0 then .ok (v_array, .GL_LINES)
            else .raise (.argerror 2 mode_msg)
        else .ok (v_array, mode)

/-- The Lua C function `vertex_array__setup_drawing`. A call through a NULL
callback is undefined. -/
def vertex_array__setup_drawing (w : World) : Outcome Unit :=
  match w.mvp_callback, w.normal_xform_callback with
  | some mvp, some nrm =>
    .ok () (w.emit [.glUseProgram w.program, .call_mvp_callback mvp w.mvp_loc,
                    .call_normal_xform_callback nrm w.normal_xform_loc])
  | _, _ => .undefined

/-- The Lua C function `vertex_array__draw_without_setup`. -/
def vertex_array__draw_without_setup (lib : LuaLib) (args : List LuaValue) (w : World) :
    Outcome Unit :=
  (get_self_and_mode lib args w).andThen w fun (v_array, mode) =>
    .ok () (w.emit [.glBindVertexArray v_array.vao, .glDrawArrays mode 0 v_array.num_pts])

/-- The Lua C function `vertex_array__draw`. -/
def vertex_array__draw (lib : LuaLib) (args : List LuaValue) (w : World) : Outcome Unit :=
  (get_self_and_mode lib args w).andThen w fun (v_array, mode) =>
    match w.mvp_callback, w.normal_xform_callback with
    | some mvp, some nrm =>
      .ok () (w.emit [.glUseProgram w.program, .glBindVertexArray v_array.vao,
                      .call_mvp_callback mvp w.mvp_loc,
                      .call_normal_xform_callback nrm w.normal_xform_loc,
                      .glUniform3fv w.color_loc 1 v_array.color,
                      .glDrawArrays mode 0 v_array.num_pts])
    | _, _ => .undefined

/-- The function `vertex_array__set_mvp_callback`. -/
def vertex_array__set_mvp_callback (cb : Option Nat) (w : World) : World :=
  { w with mvp_callback := cb }

/-- The function `vertex_array__set_normal_callback`. -/
def vertex_array__set_normal_callback (cb : Option Nat) (w : World) : World :=
  { w with normal_xform_callback := cb }

/-! ## Reference definitions used to state the properties -/

/-- Vertex `i` of a flat point buffer. -/
def point (v_pts : CArray) (i : Nat) : Vec3 :=
  ⟨v_pts.getD (3 * i) 0, v_pts.getD (3 * i + 1) 0, v_pts.getD (3 * i + 2) 0⟩

/-- The sign of the normal of vertex `k`: alternating for a triangle strip,
fixed otherwise. -/
def strip_sign (draw_mode : Mode) (k : Nat) : ℚ :=
  if draw_mode = Mode.mode_triangle_strip then (-1) ^ k else 1

/-- The normal vector of vertex `k` as the algorithm is described. -/
def vertex_normal (draw_mode : Mode) (normalize : Vec3 → Vec3) (v_pts : CArray) (k : Nat) : Vec3 :=
  if k < 2 then ⟨0, 0, 0⟩
  else Vec3.scale (strip_sign draw_mode k)
    (normalize (Vec3.cross ((point v_pts (k - 1)).sub (point v_pts (k - 2)))
      ((point v_pts k).sub (point v_pts (k - 1)))))

/-- The floats of the normals of vertices `0 .. m - 1`, in order. -/
def normals_upto (draw_mode : Mode) (normalize : Vec3 → Vec3) (v_pts : CArray) (m : Nat) : CArray :=
  (List.range m).flatMap fun k => (vertex_normal draw_mode normalize v_pts k).toList

/-- The running sign once vertices `0 .. m - 1` have been handled. -/
def sign_after (draw_mode : Mode) (m : Nat) : ℚ :=
  if draw_mode = Mode.mode_triangle_strip then (-1) ^ (m - 2) else 1

/-- The items of a table before its first hole. -/
def before_hole (items : List LuaValue) : List LuaValue :=
  items.takeWhile fun v => !lua_isnil (some v)

/-- A runtime for the concrete examples: it converts the strings "1" and "0.5"
to numbers, renders a number as the numeral "0" (exact for the number 0, the
only one rendered in the examples), and gives strings and the instances of this
library an `__index` metafield. Its conversion to a 32-bit float rounds
16777217 = 2^24 + 1 to 16777216 (a float has 24 significant bits; the tie goes
to the even significand) and leaves every other number as it is, which is exact
for the numbers the examples convert and inspect: 0, 1/2, 1, 2, 4 and 7. -/
def sample_lib : LuaLib :=
  { str2num := fun s => if s = "1" then some 1 else if s = "0.5" then some (1 / 2) else none,
    num2str := fun _ => "0",
    to_GLfloat := fun x => if x = 16777217 then 16777216 else x,
    has_index := fun v =>
      match v with
      | .str _ => true
      | .userdata t _ => t = vertex_array_metatable
      | _ => false }

/-- The data of the `glBufferData` commands of a trace, in order. -/
def uploads : List GLCmd → List CArray
  | [] => []
  | .glBufferData _ data :: rest => data :: uploads rest
  | _ :: rest => uploads rest

/-- The value of a step that returns normally. -/
def Checked.value? {α : Type} : Checked α → Option α
  | .ok a => some a
  | _ => none

/-- The error of an outcome, if it is one. -/
def Outcome.error? {α : Type} : Outcome α → Option LuaError
  | .raise e _ => some e
  | _ => none

/-- The world an outcome leaves, if it is defined. -/
def Outcome.world? {α : Type} : Outcome α → Option World
  | .ok _ w => some w
  | .raise _ w => some w
  | .undefined => none

/-- The instance a call returns: the block its userdata result points to. -/
def created : Outcome LuaValue → Option VertexArray
  | .ok (.userdata _ addr) w => w.heap[addr]?
  | _ => none

/-- The four recognised mode names. -/
def mode_names : List String := ["triangle strip", "triangles", "points", "lines"]

/-- The name of each mode. -/
def Mode.name : Mode → String
  | .mode_triangle_strip => "triangle strip"
  | .mode_triangles => "triangles"
  | .mode_points => "points"
  | .mode_lines => "lines"

/-- The primitive topology of each mode. -/
def topology : Mode → GLenum
  | .mode_triangle_strip => .GL_TRIANGLE_STRIP
  | .mode_triangles => .GL_TRIANGLES
  | .mode_points => .GL_POINTS
  | .mode_lines => .GL_LINES

/-- The default colour, as the floats the code stores. -/
def default_color (lib : LuaLib) : Vec3 :=
  ⟨lib.to_GLfloat (494 / 1000), lib.to_GLfloat (349 / 1000), lib.to_GLfloat (204 / 1000)⟩

/-- An instance for the concrete examples: three vertices drawn as triangles,
with a colour whose components are exact 32-bit floats. -/
def sample_instance : VertexArray :=
  { vao := 1, vertices_vbo := 1, normals_vbo := 2, num_pts := 3,
    draw_mode := .mode_triangles, color := ⟨1 / 2, 1 / 4, 1 / 8⟩ }

/-- A world for the concrete examples: both callbacks registered, one instance
at address 0, no command issued yet. -/
def sample_world : World :=
  { program := 1, mvp_loc := 0, normal_xform_loc := 1, color_loc := 2,
    mvp_callback := some 7, normal_xform_callback := some 8,
    heap := [sample_instance], gl := [], vao_names := 1, buffer_names := 2 }

/-- The world once `vertex_array__new` has handled the point size of a
"points" instance: `glPointSize` is issued when the fifth argument is a
number. -/
def point_size_world (lib : LuaLib) (args : List LuaValue) (w : World) : World :=
  match lua_tonumberx lib (lua_arg args 5) with
  | some point_size => w.emit [.glPointSize (lib.to_GLfloat point_size)]
  | none => w

/-- The string `get_self_and_mode` compares with the mode names when
`lua_isstring` holds for the override: the string itself, or the numeral of a
number. -/
def override_name (lib : LuaLib) : Option LuaValue → Option String
  | some (.str s) => some s
  | some (.number n) => some (lib.num2str n)
  | _ => none

/-- The commands of one `draw_without_setup`. -/
def without_setup_cmds (inst : VertexArray) (mode : GLenum) : List GLCmd :=
  [.glBindVertexArray inst.vao, .glDrawArrays mode 0 inst.num_pts]

/-- The commands of one `draw` in world `w` with callbacks `mvp` and `nrm`. -/
def draw_cmds (w : World) (mvp nrm : Nat) (inst : VertexArray) (mode : GLenum) : List GLCmd :=
  [.glUseProgram w.program, .glBindVertexArray inst.vao,
   .call_mvp_callback mvp w.mvp_loc, .call_normal_xform_callback nrm w.normal_xform_loc,
   .glUniform3fv w.color_loc 1 inst.color, .glDrawArrays mode 0 inst.num_pts]

/-- A call a script makes into the library. -/
inductive Call
  | setup_drawing
  | draw (args : List LuaValue)
  | draw_without_setup (args : List LuaValue)

/-- Run one call. -/
def Call.run (lib : LuaLib) : Call → World → Outcome Unit
  | .setup_drawing, w => vertex_array__setup_drawing w
  | .draw args, w => vertex_array__draw lib args w
  | .draw_without_setup args, w => vertex_array__draw_without_setup lib args w

/-- A script that makes the calls in order, each in protected mode: the
errors raised, in order, and the final world; `none` when a call is
undefined. -/
def run_calls (lib : LuaLib) : List Call → World → Option (List LuaError × World)
  | [], w => some ([], w)
  | c :: rest, w =>
    match c.run lib w with
    | .ok _ w1 => run_calls lib rest w1
    | .raise e w1 => (run_calls lib rest w1).map fun r => (e :: r.1, r.2)
    | .undefined => none

/-- A userdata passed as self with the metatable of the library points into
the heap. -/
def Call.self_in_heap (w : World) : Call → Bool
  | .setup_drawing => true
  | .draw args | .draw_without_setup args =>
    match lua_arg args 1 with
    | some (.userdata t addr) => decide (t = vertex_array_metatable → addr < w.heap.length)
    | _ => true

/-- The arguments of a draw call on the instance at `addr`, the override given
by its name when there is one. -/
def draw_args (addr : Nat) (override : Option Mode) : List LuaValue :=
  match override with
  | none => [.userdata vertex_array_metatable addr]
  | some m => [.userdata vertex_array_metatable addr, .str m.name]

/-- Is the command a program activation? -/
def GLCmd.is_activation : GLCmd → Bool
  | .glUseProgram _ => true
  | _ => false

/-- Is the command a call of the mvp callback? -/
def GLCmd.is_mvp_call : GLCmd → Bool
  | .call_mvp_callback _ _ => true
  | _ => false

/-- Is the command a call of the normal-transform callback? -/
def GLCmd.is_normal_call : GLCmd → Bool
  | .call_normal_xform_callback _ _ => true
  | _ => false

/-- Is the command a draw command? -/
def GLCmd.is_draw : GLCmd → Bool
  | .glDrawArrays _ _ _ => true
  | _ => false

/-- The commands of a batch of `draw_without_setup` calls, one pair
(address, override) per call, on the instances of world `w`. -/
def batch_cmds (w : World) (items : List (Nat × Option Mode)) : List GLCmd :=
  items.flatMap fun it =>
    match w.heap[it.1]? with
    | some inst => without_setup_cmds inst (topology (it.2.getD inst.draw_mode))
    | none => []

/-! ## Theorems -/

theorem normals_step_skip (draw_mode : Mode) (normalize : Vec3 → Vec3) (v_pts : CArray)
    (st : NormalState) (j : Nat) (h : j % 3 ≠ 0) :
    normals_step draw_mode normalize v_pts st j = some st := by
  simp [normals_step, h]

theorem getElem?_eq_getD_of_lt (l : CArray) (i : Nat) (h : i < l.length) :
    l[i]? = some (l.getD i 0) := by
  rw [List.getElem?_eq_getElem h, List.getD_eq_getElem l 0 h]

theorem normals_step_aligned (draw_mode : Mode) (normalize : Vec3 → Vec3) (v_pts : CArray)
    (n m : Nat) (hlen : v_pts.length = 3 * n) (hm : m < n) (ns : CArray) :
    normals_step draw_mode normalize v_pts ⟨ns, sign_after draw_mode m⟩ (3 * m)
      = some ⟨ns ++ (vertex_normal draw_mode normalize v_pts m).toList,
              sign_after draw_mode (m + 1)⟩ := by
  by_cases h2 : m < 2
  · have h6 : 3 * m < 6 := by omega
    have hs : sign_after draw_mode (m + 1) = sign_after draw_mode m := by
      have : m + 1 - 2 = 0 := by omega
      have h0 : m - 2 = 0 := by omega
      simp [sign_after, this, h0]
    simp [normals_step, h6, vertex_normal, h2, Vec3.toList, hs]
  · have h6 : ¬ 3 * m < 6 := by omega
    obtain ⟨k, rfl⟩ : ∃ k, m = k + 2 := ⟨m - 2, by omega⟩
    have e0 := getElem?_eq_getD_of_lt v_pts (3 * (k + 2) - 6) (by omega)
    have e1 := getElem?_eq_getD_of_lt v_pts (3 * (k + 2) - 5) (by omega)
    have e2 := getElem?_eq_getD_of_lt v_pts (3 * (k + 2) - 4) (by omega)
    have e3 := getElem?_eq_getD_of_lt v_pts (3 * (k + 2) - 3) (by omega)
    have e4 := getElem?_eq_getD_of_lt v_pts (3 * (k + 2) - 2) (by omega)
    have e5 := getElem?_eq_getD_of_lt v_pts (3 * (k + 2) - 1) (by omega)
    have e6 := getElem?_eq_getD_of_lt v_pts (3 * (k + 2)) (by omega)
    have e7 := getElem?_eq_getD_of_lt v_pts (3 * (k + 2) + 1) (by omega)
    have e8 := getElem?_eq_getD_of_lt v_pts (3 * (k + 2) + 2) (by omega)
    have i0 : 3 * (k + 2) - 6 = 3 * k := by omega
    have i1 : 3 * (k + 2) - 5 = 3 * k + 1 := by omega
    have i2 : 3 * (k + 2) - 4 = 3 * k + 2 := by omega
    have i3 : 3 * (k + 2) - 3 = 3 * (k + 1) := by omega
    have i4 : 3 * (k + 2) - 2 = 3 * (k + 1) + 1 := by omega
    have i5 : 3 * (k + 2) - 1 = 3 * (k + 1) + 2 := by omega
    unfold normals_step
    rw [if_neg (by simp), if_neg h6, e0, e1, e2, e3, e4, e5, e6, e7, e8, i0, i1, i2, i3, i4, i5]
    simp only [vertex_normal, h2, if_false, point, Nat.add_sub_cancel]
    have j1 : k + 2 - 1 = k + 1 := by omega
    have j2 : k + 2 + 1 - 2 = k + 1 := by omega
    rw [j1]
    by_cases hs : draw_mode = Mode.mode_triangle_strip
    · simp [sign_after, strip_sign, hs, j2, pow_succ]
    · simp [sign_after, strip_sign, hs]

theorem normals_fold (draw_mode : Mode) (normalize : Vec3 → Vec3) (v_pts : CArray)
    (n : Nat) (hlen : v_pts.length = 3 * n) :
    ∀ m, m ≤ n →
      (List.range (3 * m)).foldlM (normals_step draw_mode normalize v_pts)
        { n_vecs := [], sign := 1 }
      = some ⟨normals_upto draw_mode normalize v_pts m, sign_after draw_mode m⟩ := by
  intro m
  induction m with
  | zero =>
    intro _
    simp [normals_upto, sign_after]
  | succ m ih =>
    intro hm
    have hr : List.range (3 * (m + 1)) = List.range (3 * m) ++ [3 * m, 3 * m + 1, 3 * m + 2] := by
      have : 3 * (m + 1) = ((3 * m + 1) + 1) + 1 := by ring
      rw [this, List.range_succ, List.range_succ, List.range_succ]
      simp
    rw [hr, List.foldlM_append, ih (by omega)]
    simp only [Option.bind_eq_bind, Option.some_bind, List.foldlM_cons, List.foldlM_nil]
    rw [normals_step_aligned draw_mode normalize v_pts n m hlen (by omega)]
    simp only [Option.some_bind]
    rw [normals_step_skip _ _ _ _ _ (by omega), Option.some_bind,
      normals_step_skip _ _ _ _ _ (by omega)]
    simp [normals_upto, List.range_succ, List.flatMap_append]

theorem normals_upto_succ (draw_mode : Mode) (normalize : Vec3 → Vec3) (v_pts : CArray) (m : Nat) :
    normals_upto draw_mode normalize v_pts (m + 1)
      = normals_upto draw_mode normalize v_pts m
        ++ (vertex_normal draw_mode normalize v_pts m).toList := by
  simp [normals_upto, List.range_succ, List.flatMap_append]

theorem normals_upto_length (draw_mode : Mode) (normalize : Vec3 → Vec3) (v_pts : CArray) (m : Nat) :
    (normals_upto draw_mode normalize v_pts m).length = 3 * m := by
  induction m with
  | zero => simp [normals_upto]
  | succ m ih =>
    rw [normals_upto_succ, List.length_append, ih]
    simp [Vec3.toList]
    omega

theorem normals_upto_block (draw_mode : Mode) (normalize : Vec3 → Vec3) (v_pts : CArray)
    (k : Nat) : ∀ m, k < m →
      ((normals_upto draw_mode normalize v_pts m).drop (3 * k)).take 3
        = (vertex_normal draw_mode normalize v_pts k).toList := by
  intro m
  induction m with
  | zero => intro h; omega
  | succ m ih =>
    intro h
    rw [normals_upto_succ]
    have hl := normals_upto_length draw_mode normalize v_pts m
    by_cases hk : k < m
    · rw [List.drop_append_of_le_length (by omega), List.take_append_of_le_length
        (by rw [List.length_drop]; omega)]
      exact ih hk
    · have : k = m := by omega
      subst this
      rw [List.drop_append_eq_append_drop, List.drop_of_length_le (by omega)]
      simp [hl, Vec3.toList]

theorem compute_normals_aligned (draw_mode : Mode) (normalize : Vec3 → Vec3) (v_pts : CArray)
    (n : Nat) (hlen : v_pts.length = 3 * n) :
    compute_normals draw_mode normalize v_pts
      = some (normals_upto draw_mode normalize v_pts n) := by
  unfold compute_normals
  rw [hlen, normals_fold draw_mode normalize v_pts n hlen n (le_refl n)]
  rfl

/-- C1. For a flat point buffer of `3 * n` floats with `n ≥ 2` and any draw
mode, the normals loop ends without reading outside the buffer and leaves
exactly `3 * n` floats in `n_vecs` (`n` normal vectors), of which the first six
(the normals of vertices 0 and 1) are zero. -/
theorem normals_count_and_leading_zeros (draw_mode : Mode) (normalize : Vec3 → Vec3)
    (v_pts : CArray) (n : Nat) (hlen : v_pts.length = 3 * n) (hn : 2 ≤ n) :
    ∃ n_vecs, compute_normals draw_mode normalize v_pts = some n_vecs ∧
      n_vecs.length = 3 * n ∧ n_vecs.take 6 = [0, 0, 0, 0, 0, 0] := by
  refine ⟨_, compute_normals_aligned draw_mode normalize v_pts n hlen,
    normals_upto_length _ _ _ n, ?_⟩
  obtain ⟨m, rfl⟩ : ∃ m, n = 2 + m := ⟨n - 2, by omega⟩
  simp [normals_upto, List.range_add, List.flatMap_append, List.range_succ, vertex_normal,
    Vec3.toList]

/-- C2. For a flat point buffer of `3 * n` floats and a vertex index `k` with
`2 ≤ k < n`, the three floats emitted for vertex `k` are the components of
`s * normalize((p (k-1) - p (k-2)) × (p k - p (k-1)))`, where `s = (-1) ^ k`
for a triangle strip and `s = 1` for triangles, points and lines. -/
theorem normal_of_vertex (draw_mode : Mode) (normalize : Vec3 → Vec3)
    (v_pts : CArray) (n k : Nat) (hlen : v_pts.length = 3 * n) (hk : 2 ≤ k) (hkn : k < n) :
    ∃ n_vecs, compute_normals draw_mode normalize v_pts = some n_vecs ∧
      (n_vecs.drop (3 * k)).take 3
        = (Vec3.scale (if draw_mode = Mode.mode_triangle_strip then (-1) ^ k else 1)
            (normalize (Vec3.cross ((point v_pts (k - 1)).sub (point v_pts (k - 2)))
              ((point v_pts k).sub (point v_pts (k - 1)))))).toList := by
  refine ⟨_, compute_normals_aligned draw_mode normalize v_pts n hlen, ?_⟩
  rw [normals_upto_block draw_mode normalize v_pts k n hkn]
  have : ¬ k < 2 := by omega
  simp [vertex_normal, this, strip_sign]

/-- C1 at a strip of three vertices. -/
theorem normals_count_and_leading_zeros_witness :
    ∃ n_vecs, compute_normals Mode.mode_triangle_strip id [0, 0, 0, 1, 0, 0, 0, 1, 0] = some n_vecs ∧
      n_vecs.length = 3 * 3 ∧ n_vecs.take 6 = [0, 0, 0, 0, 0, 0] :=
  normals_count_and_leading_zeros Mode.mode_triangle_strip id [0, 0, 0, 1, 0, 0, 0, 1, 0] 3
    (by decide) (by decide)

/-- C2 at vertex 2 of a strip of three vertices. -/
theorem normal_of_vertex_witness :
    ∃ n_vecs, compute_normals Mode.mode_triangle_strip id [0, 0, 0, 1, 0, 0, 0, 1, 0] = some n_vecs ∧
      (n_vecs.drop (3 * 2)).take 3
        = (Vec3.scale (if Mode.mode_triangle_strip = Mode.mode_triangle_strip then (-1) ^ 2 else 1)
            (id (Vec3.cross
              ((point [0, 0, 0, 1, 0, 0, 0, 1, 0] (2 - 1)).sub (point [0, 0, 0, 1, 0, 0, 0, 1, 0] (2 - 2)))
              ((point [0, 0, 0, 1, 0, 0, 0, 1, 0] 2).sub
                (point [0, 0, 0, 1, 0, 0, 0, 1, 0] (2 - 1)))))).toList :=
  normal_of_vertex Mode.mode_triangle_strip id [0, 0, 0, 1, 0, 0, 0, 1, 0] 3 2
    (by decide) (by decide) (by decide)

theorem before_hole_cons (v : LuaValue) (rest : List LuaValue) :
    before_hole (v :: rest) = if lua_isnil (some v) then [] else v :: before_hole rest := by
  cases h : lua_isnil (some v) <;> simp [before_hole, List.takeWhile, h]

theorem c_array_loop_eq (lib : LuaLib) (items : List LuaValue) :
    ∀ arr : CArray, c_array_loop lib items arr
      = if (before_hole items).all (fun v => lua_isnumber lib (some v))
        then .ok (arr ++ (before_hole items).map fun v =>
          lib.to_GLfloat (lua_tonumber lib (some v)))
        else .raise (.traceback "Expected a flat array.") := by
  induction items with
  | nil => intro arr; simp [c_array_loop, before_hole]
  | cons v rest ih =>
    intro arr
    rw [before_hole_cons]
    unfold c_array_loop
    cases hnil : lua_isnil (some v)
    · cases hnum : lua_isnumber lib (some v)
      · simp [hnum]
      · simp [hnum, ih]
    · simp

theorem rawgeti_before_hole (items : List LuaValue) :
    lua_rawgeti items ((before_hole items).length + 1) = .nil ∧
    ∀ i, i < (before_hole items).length →
      lua_rawgeti items (i + 1) ≠ .nil ∧
      (before_hole items)[i]? = some (lua_rawgeti items (i + 1)) := by
  induction items with
  | nil => simp [before_hole, lua_rawgeti]
  | cons v rest ih =>
    rw [before_hole_cons]
    cases hnil : lua_isnil (some v)
    · obtain ⟨ih1, ih2⟩ := ih
      have hv : v ≠ .nil := by
        intro h; subst h; simp [lua_isnil] at hnil
      constructor
      · simpa [lua_rawgeti] using ih1
      · intro i hi
        cases i with
        | zero => simpa [lua_rawgeti] using hv
        | succ i =>
          have := ih2 i (by simpa using hi)
          simpa [lua_rawgeti] using this
    · have hv : v = .nil := by
        cases v <;> simp [lua_isnil] at hnil
        rfl
      subst hv
      simp [lua_rawgeti]

/-- C6, as the code has it. For a table at the given stack index there is a
least index `m ≥ 1` whose item is nil. When every item before it is numeric (a
number, or a string that converts to one) the function returns the numbers of
items `1 .. m - 1`, each converted to a 32-bit float, in order (length
`m - 1`), whatever is stored after the hole; when some item before it is not
numeric it raises "Expected a flat array." and returns no array. -/
theorem c_array_from_lua_array_spec (lib : LuaLib) (args : List LuaValue) (index : Nat)
    (items : List LuaValue) (harg : lua_arg args index = some (.table items)) :
    ∃ m, 1 ≤ m ∧ lua_rawgeti items m = .nil ∧
      (∀ i, 1 ≤ i → i < m → lua_rawgeti items i ≠ .nil) ∧
      ((∀ i, 1 ≤ i → i < m → lua_isnumber lib (some (lua_rawgeti items i)) = true) →
        c_array_from_lua_array lib args index
          = .ok ((List.range (m - 1)).map fun i =>
              lib.to_GLfloat (lua_tonumber lib (some (lua_rawgeti items (i + 1)))))) ∧
      ((∃ i, 1 ≤ i ∧ i < m ∧ lua_isnumber lib (some (lua_rawgeti items i)) = false) →
        c_array_from_lua_array lib args index
          = .raise (.traceback "Expected a flat array.")) := by
  obtain ⟨h1, h2⟩ := rawgeti_before_hole items
  have hrun : c_array_from_lua_array lib args index = c_array_loop lib items [] := by
    simp [c_array_from_lua_array, harg]
  refine ⟨(before_hole items).length + 1, by omega, h1, ?_, ?_, ?_⟩
  · intro i hi1 him
    obtain ⟨j, rfl⟩ : ∃ j, i = j + 1 := ⟨i - 1, by omega⟩
    exact (h2 j (by omega)).1
  · intro hall
    rw [hrun, c_array_loop_eq]
    have hA : (before_hole items).all (fun v => lua_isnumber lib (some v)) = true := by
      rw [List.all_eq_true]
      intro v hv
      obtain ⟨j, hj, rfl⟩ := List.getElem_of_mem hv
      have := (h2 j hj).2
      rw [List.getElem?_eq_getElem hj] at this
      rw [Option.some.inj this]
      exact hall (j + 1) (by omega) (by omega)
    rw [if_pos hA]
    congr 1
    apply List.ext_getElem?
    intro j
    by_cases hj : j < (before_hole items).length
    · have := (h2 j hj).2
      rw [List.getElem?_eq_getElem hj] at this
      simp [List.getElem?_map, Option.some.inj this, List.getElem?_range, hj]
    · have hr : (List.range (before_hole items).length)[j]? = none :=
        List.getElem?_eq_none (by simpa using hj)
      simp [List.getElem?_map, hj, List.getElem?_eq_none (not_lt.mp hj), hr]
  · rintro ⟨i, hi1, him, hbad⟩
    rw [hrun, c_array_loop_eq]
    obtain ⟨j, rfl⟩ : ∃ j, i = j + 1 := ⟨i - 1, by omega⟩
    have hj : j < (before_hole items).length := by omega
    have hmem := (h2 j hj).2
    rw [List.getElem?_eq_getElem hj] at hmem
    have hA : ¬ ((before_hole items).all (fun v => lua_isnumber lib (some v)) = true) := by
      rw [List.all_eq_true]
      intro hall
      have := hall _ (List.getElem_mem hj)
      rw [Option.some.inj hmem, hbad] at this
      exact Bool.noConfusion this
    rw [if_neg hA]

/-- C6 fails as stated. The table holding the single number 16777217 is a flat
array of numbers, yet the array returned holds 16777216: the number is stored
in a `GLfloat`, and a 32-bit float cannot hold 2^24 + 1. -/
theorem stored_float_differs_from_number :
    (c_array_from_lua_array sample_lib [.nil, .table [.number 16777217]] 2).value?
      = some [16777216] ∧
    ([16777216] : CArray) ≠ [16777217] := by
  decide

/-- C6 (amended) at a table with a numeric string, a hole and an item after the
hole. -/
theorem c_array_from_lua_array_spec_witness :
    ∃ m, 1 ≤ m ∧ lua_rawgeti [.number 1, .str "0.5", .nil, .number 7] m = .nil ∧
      (∀ i, 1 ≤ i → i < m → lua_rawgeti [.number 1, .str "0.5", .nil, .number 7] i ≠ .nil) ∧
      ((∀ i, 1 ≤ i → i < m →
          lua_isnumber sample_lib (some (lua_rawgeti [.number 1, .str "0.5", .nil, .number 7] i))
            = true) →
        c_array_from_lua_array sample_lib
            [.nil, .table [.number 1, .str "0.5", .nil, .number 7]] 2
          = .ok ((List.range (m - 1)).map fun i =>
              sample_lib.to_GLfloat (lua_tonumber sample_lib
                (some (lua_rawgeti [.number 1, .str "0.5", .nil, .number 7] (i + 1)))))) ∧
      ((∃ i, 1 ≤ i ∧ i < m ∧
          lua_isnumber sample_lib (some (lua_rawgeti [.number 1, .str "0.5", .nil, .number 7] i))
            = false) →
        c_array_from_lua_array sample_lib
            [.nil, .table [.number 1, .str "0.5", .nil, .number 7]] 2
          = .raise (.traceback "Expected a flat array.")) :=
  c_array_from_lua_array_spec sample_lib [.nil, .table [.number 1, .str "0.5", .nil, .number 7]] 2
    [.number 1, .str "0.5", .nil, .number 7] rfl

theorem uploads_append (a b : List GLCmd) : uploads (a ++ b) = uploads a ++ uploads b := by
  induction a with
  | nil => rfl
  | cons c rest ih => cases c <;> simp [uploads, ih]

/-- C8, as the code has it. For a point array whose length is a multiple of 3
(the empty one included) the setup uploads two buffers, the points and then
the normals, with the same number of floats, and `num_pts` is the length
divided by 3, the number of vertices in each of the two buffers. -/
theorem buffers_agree_when_aligned (normalize : Vec3 → Vec3) (v_array : VertexArray)
    (v_pts : CArray) (w : World) (n : Nat) (hlen : v_pts.length = 3 * n) :
    ∃ n_vecs v_array1 w1,
      gl_setup_new_vertex_array normalize v_array v_pts w = some (v_array1, w1) ∧
      uploads w1.gl = uploads w.gl ++ [v_pts, n_vecs] ∧
      n_vecs.length = v_pts.length ∧
      v_array1.num_pts = v_pts.length / 3 ∧
      v_pts.length = 3 * v_array1.num_pts ∧ n_vecs.length = 3 * v_array1.num_pts := by
  have hn := compute_normals_aligned v_array.draw_mode normalize v_pts n hlen
  have hl := normals_upto_length v_array.draw_mode normalize v_pts n
  have key : ∃ v_array1 w1,
      gl_setup_new_vertex_array normalize v_array v_pts w = some (v_array1, w1) ∧
      uploads w1.gl
        = uploads w.gl ++ [v_pts, normals_upto v_array.draw_mode normalize v_pts n] ∧
      v_array1.num_pts = v_pts.length / 3 := by
    simp only [gl_setup_new_vertex_array, hn]
    refine ⟨_, _, rfl, ?_, rfl⟩
    simp [World.emit, uploads_append, uploads, set_array_as_buffer_data]
  obtain ⟨v_array1, w1, h1, h2, h3⟩ := key
  refine ⟨_, v_array1, w1, h1, h2, ?_, h3, ?_, ?_⟩
  · omega
  · omega
  · omega

/-- C8 (amended) at a point array of two vertices. -/
theorem buffers_agree_when_aligned_witness :
    ∃ n_vecs v_array1 w1,
      gl_setup_new_vertex_array id sample_instance [0, 0, 0, 1, 0, 0] sample_world
        = some (v_array1, w1) ∧
      uploads w1.gl = uploads sample_world.gl ++ [[0, 0, 0, 1, 0, 0], n_vecs] ∧
      n_vecs.length = ([0, 0, 0, 1, 0, 0] : CArray).length ∧
      v_array1.num_pts = ([0, 0, 0, 1, 0, 0] : CArray).length / 3 ∧
      ([0, 0, 0, 1, 0, 0] : CArray).length = 3 * v_array1.num_pts ∧
      n_vecs.length = 3 * v_array1.num_pts :=
  buffers_agree_when_aligned id sample_instance [0, 0, 0, 1, 0, 0] sample_world 2 (by decide)

/-- C8 fails as stated. For the four floats 0, 0, 0, 0 the loop runs its zero
branch at `j = 0` and at `j = 3`: the points buffer uploaded has 4 floats, the
normals buffer 6, and `num_pts` is 1. -/
theorem buffers_differ_on_four_floats :
    (gl_setup_new_vertex_array id sample_instance [0, 0, 0, 0] sample_world).map
        (fun r => ((uploads r.2.gl).map List.length, r.1.num_pts))
      = some ([4, 6], 1) := by
  decide

theorem strcmp_eq_zero (a b : String) : strcmp a b = 0 ↔ c_str a = c_str b := by
  unfold strcmp
  by_cases h : c_str a = c_str b <;> simp [h]

theorem gl_setup_fields (normalize : Vec3 → Vec3) (v_array : VertexArray) (v_pts : CArray)
    (w : World) (v_array1 : VertexArray) (w1 : World)
    (h : gl_setup_new_vertex_array normalize v_array v_pts w = some (v_array1, w1)) :
    v_array1.draw_mode = v_array.draw_mode ∧ v_array1.color = v_array.color ∧
      v_array1.num_pts = v_pts.length / 3 ∧ w1.heap = w.heap := by
  unfold gl_setup_new_vertex_array at h
  cases hn : compute_normals v_array.draw_mode normalize v_pts with
  | none => simp [hn] at h
  | some n_vecs =>
    simp only [hn, Option.some.injEq, Prod.mk.injEq] at h
    obtain ⟨h1, h2⟩ := h
    subst h1 h2
    simp [World.emit]

theorem gl_setup_defined (normalize : Vec3 → Vec3) (v_array : VertexArray) (v_pts : CArray)
    (w : World) (hlen : v_pts.length % 3 = 0) :
    ∃ r, gl_setup_new_vertex_array normalize v_array v_pts w = some r := by
  have hn := compute_normals_aligned v_array.draw_mode normalize v_pts (v_pts.length / 3)
    (by omega)
  simp [gl_setup_new_vertex_array, hn]

/-- The colour `vertex_array__new` settles on, before any instance is made. -/
theorem new_finish_of_color (lib : LuaLib) (normalize : Vec3 → Vec3) (args : List LuaValue)
    (v_pts : CArray) (draw_mode : Mode) (w : World) :
    (∀ items, lua_arg args 4 = some (.table items) → ∀ e, read_color lib items = .raise e →
      new_finish lib normalize args v_pts draw_mode w = .raise e w) ∧
    (∀ color, ((∃ items, lua_arg args 4 = some (.table items) ∧ read_color lib items = .ok color)
        ∨ (lua_istable (lua_arg args 4) = false ∧ color = default_color lib)) →
      v_pts.length % 3 = 0 →
      ∃ inst, created (new_finish lib normalize args v_pts draw_mode w) = some inst ∧
        (new_finish lib normalize args v_pts draw_mode w).error? = none ∧
        inst.draw_mode = draw_mode ∧ inst.color = color ∧ inst.num_pts = v_pts.length / 3) := by
  constructor
  · intro items harg e he
    simp [new_finish, harg, he, Checked.andThen]
  · intro color hc hlen
    have hcol : (match lua_arg args 4 with
        | some (.table items) => read_color lib items
        | _ => Checked.ok (⟨lib.to_GLfloat (494 / 1000), lib.to_GLfloat (349 / 1000),
          lib.to_GLfloat (204 / 1000)⟩ : Vec3)) = .ok color := by
      rcases hc with ⟨items, harg, hr⟩ | ⟨hnt, rfl⟩
      · simp [harg, hr]
      · cases h4 : lua_arg args 4 with
        | none => rfl
        | some v => cases v <;> first | rfl | (simp [h4, lua_istable] at hnt)
    obtain ⟨⟨va, w1⟩, hset⟩ := gl_setup_defined normalize
      { vao := 0, vertices_vbo := 0, normals_vbo := 0, num_pts := 0,
        draw_mode := draw_mode, color := color } v_pts w hlen
    have hf := gl_setup_fields normalize _ v_pts w va w1 hset
    have hnew : new_finish lib normalize args v_pts draw_mode w
        = .ok (.userdata vertex_array_metatable w1.heap.length)
            { w1 with heap := w1.heap ++ [va] } := by
      unfold new_finish
      simp only [hcol, Checked.andThen, hset]
    refine ⟨va, ?_, ?_, hf.1, hf.2.1, hf.2.2.1⟩
    · rw [hnew]; simp [created]
    · rw [hnew]; rfl

theorem mode_names_cases (s : String) :
    s ∈ mode_names ↔ ∃ m : Mode, s = m.name := by
  constructor
  · intro h
    simp only [mode_names, List.mem_cons, List.mem_singleton, List.mem_nil_iff, or_false] at h
    rcases h with h | h | h | h
    · exact ⟨.mode_triangle_strip, h⟩
    · exact ⟨.mode_triangles, h⟩
    · exact ⟨.mode_points, h⟩
    · exact ⟨.mode_lines, h⟩
  · rintro ⟨m, rfl⟩
    cases m <;> simp [mode_names, Mode.name]

theorem new_of_points_and_mode (lib : LuaLib) (normalize : Vec3 → Vec3) (args : List LuaValue)
    (w : World) (v_pts : CArray) (mode_str : String)
    (hpts : c_array_from_lua_array lib args 2 = .ok v_pts)
    (hstr : luaL_checkstring lib args 3 = .ok mode_str) :
    (∀ m : Mode, c_str mode_str = m.name →
      vertex_array__new lib normalize args w
        = new_finish lib normalize args v_pts m
            (if m = .mode_points then point_size_world lib args w else w)) ∧
    (c_str mode_str ∉ mode_names →
      vertex_array__new lib normalize args w = .raise (.argerror 3 mode_msg) w) := by
  have hidx : luaL_checkindexable lib args 2 = .ok () := by
    unfold c_array_from_lua_array at hpts
    unfold luaL_checkindexable
    cases h2 : lua_arg args 2 with
    | none => simp [h2] at hpts
    | some v =>
      cases v with
      | table items => simp [lua_istable]
      | _ => simp [h2] at hpts
  have e1 : c_str "triangle strip" = "triangle strip" := by decide
  have e2 : c_str "triangles" = "triangles" := by decide
  have e3 : c_str "points" = "points" := by decide
  have e4 : c_str "lines" = "lines" := by decide
  have hunf : vertex_array__new lib normalize args w
      = if c_str mode_str = "triangle strip" then
          new_finish lib normalize args v_pts .mode_triangle_strip w
        else if c_str mode_str = "triangles" then
          new_finish lib normalize args v_pts .mode_triangles w
        else if c_str mode_str = "points" then
          new_finish lib normalize args v_pts .mode_points (point_size_world lib args w)
        else if c_str mode_str = "lines" then
          new_finish lib normalize args v_pts .mode_lines w
        else .raise (.argerror 3 mode_msg) w := by
    unfold vertex_array__new
    simp only [hidx, hpts, hstr, Checked.andThen, strcmp_eq_zero, e1, e2, e3, e4,
      point_size_world]
    split_ifs <;> first | rfl | (cases lua_tonumberx lib (lua_arg args 5) <;> rfl)
  constructor
  · intro m hm
    rw [hunf, hm]
    cases m <;> simp [Mode.name]
  · intro hnot
    rw [hunf]
    simp only [mode_names, List.mem_cons, List.mem_singleton, List.mem_nil_iff, or_false,
      not_or] at hnot
    simp [hnot.1, hnot.2.1, hnot.2.2.1, hnot.2.2.2]

theorem read_color_cases (lib : LuaLib) (items : List LuaValue) :
    (∃ r g b, lua_tonumberx lib (some (lua_rawgeti items 1)) = some r ∧
        lua_tonumberx lib (some (lua_rawgeti items 2)) = some g ∧
        lua_tonumberx lib (some (lua_rawgeti items 3)) = some b ∧
        read_color lib items
          = .ok ⟨lib.to_GLfloat r, lib.to_GLfloat g, lib.to_GLfloat b⟩) ∨
    ((lua_tonumberx lib (some (lua_rawgeti items 1)) = none ∨
        lua_tonumberx lib (some (lua_rawgeti items 2)) = none ∨
        lua_tonumberx lib (some (lua_rawgeti items 3)) = none) ∧
      read_color lib items = .raise (.argerror 4 "Expected color to contain numeric values")) := by
  unfold read_color
  cases h1 : lua_tonumberx lib (some (lua_rawgeti items 1)) with
  | none => right; simp
  | some r =>
    cases h2 : lua_tonumberx lib (some (lua_rawgeti items 2)) with
    | none => right; simp
    | some g =>
      cases h3 : lua_tonumberx lib (some (lua_rawgeti items 3)) with
      | none => right; simp
      | some b => left; exact ⟨r, g, b, rfl, rfl, rfl, rfl⟩

theorem new_finish_error (lib : LuaLib) (normalize : Vec3 → Vec3) (args : List LuaValue)
    (v_pts : CArray) (draw_mode : Mode) (w : World) (e : LuaError)
    (h : (new_finish lib normalize args v_pts draw_mode w).error? = some e) :
    e = .argerror 4 "Expected color to contain numeric values" ∧
      new_finish lib normalize args v_pts draw_mode w = .raise e w := by
  have key : ∀ c : Checked Vec3,
      (∀ e1, c = .raise e1 → e1 = .argerror 4 "Expected color to contain numeric values") →
      c ≠ .undefined →
      (c.andThen w fun color =>
        match gl_setup_new_vertex_array normalize
          { vao := 0, vertices_vbo := 0, normals_vbo := 0, num_pts := 0,
            draw_mode := draw_mode, color := color } v_pts w with
        | none => (Outcome.undefined : Outcome LuaValue)
        | some (v_array, w) =>
          .ok (.userdata vertex_array_metatable w.heap.length)
            { w with heap := w.heap ++ [v_array] }).error? = some e →
      e = .argerror 4 "Expected color to contain numeric values" ∧
      (c.andThen w fun color =>
        match gl_setup_new_vertex_array normalize
          { vao := 0, vertices_vbo := 0, normals_vbo := 0, num_pts := 0,
            draw_mode := draw_mode, color := color } v_pts w with
        | none => (Outcome.undefined : Outcome LuaValue)
        | some (v_array, w) =>
          .ok (.userdata vertex_array_metatable w.heap.length)
            { w with heap := w.heap ++ [v_array] }) = .raise e w := by
    intro c hc hu he
    cases c with
    | ok color =>
      simp only [Checked.andThen] at he ⊢
      cases hs : gl_setup_new_vertex_array normalize
          { vao := 0, vertices_vbo := 0, normals_vbo := 0, num_pts := 0,
            draw_mode := draw_mode, color := color } v_pts w with
      | none => simp [hs, Outcome.error?] at he
      | some r => simp [hs, Outcome.error?] at he
    | raise e1 =>
      simp only [Checked.andThen, Outcome.error?, Option.some.injEq] at he ⊢
      subst he
      exact ⟨hc _ rfl, rfl⟩
    | undefined => exact absurd rfl hu
  unfold new_finish at h ⊢
  apply key _ _ _ h
  · intro e1 he1
    cases h4 : lua_arg args 4 with
    | none => simp [h4] at he1
    | some v =>
      cases v with
      | table items =>
        simp only [h4] at he1
        rcases read_color_cases lib items with ⟨r, g, b, _, _, _, hok⟩ | ⟨_, hr⟩
        · rw [hok] at he1; cases he1
        · rw [hr] at he1; cases he1; rfl
      | _ => simp [h4] at he1
  · cases h4 : lua_arg args 4 with
    | none => simp
    | some v =>
      cases v with
      | table items =>
        simp only []
        rcases read_color_cases lib items with ⟨r, g, b, _, _, _, hok⟩ | ⟨_, hr⟩
        · rw [hok]; simp
        · rw [hr]; simp
      | _ => simp

theorem new_finish_created (lib : LuaLib) (normalize : Vec3 → Vec3) (args : List LuaValue)
    (v_pts : CArray) (draw_mode : Mode) (w : World) (inst : VertexArray)
    (h : created (new_finish lib normalize args v_pts draw_mode w) = some inst) :
    inst.draw_mode = draw_mode ∧ inst.num_pts = v_pts.length / 3 := by
  unfold new_finish at h
  generalize (match lua_arg args 4 with
    | some (.table items) => read_color lib items
    | _ => Checked.ok (⟨lib.to_GLfloat (494 / 1000), lib.to_GLfloat (349 / 1000),
          lib.to_GLfloat (204 / 1000)⟩ : Vec3)) = c at h
  cases c with
  | ok color =>
    simp only [Checked.andThen] at h
    cases hs : gl_setup_new_vertex_array normalize
        { vao := 0, vertices_vbo := 0, normals_vbo := 0, num_pts := 0,
          draw_mode := draw_mode, color := color } v_pts w with
    | none => simp [hs, created] at h
    | some r =>
      obtain ⟨va, w1⟩ := r
      simp only [hs, created, List.getElem?_concat_length, Option.some.injEq] at h
      subst h
      have hf := gl_setup_fields normalize _ v_pts w _ w1 hs
      exact ⟨hf.1, hf.2.2.1⟩
  | raise e => simp [Checked.andThen, created] at h
  | undefined => simp [Checked.andThen, created] at h

/-- C3, as the code has it. With a flat table of points and a string `s` as
the mode argument, the name is compared as a C string (the bytes of `s` before
its first NUL). The call fails with the argument error for argument 3 exactly
when that C string is none of the four names, and then nothing is returned and
the world is unchanged; an instance that is returned has the mode of that
name; and with no colour table and a point count that is a multiple of 3 an
instance is returned. -/
theorem mode_name_resolution (lib : LuaLib) (normalize : Vec3 → Vec3) (args : List LuaValue)
    (w : World) (v_pts : CArray) (s : String)
    (hpts : c_array_from_lua_array lib args 2 = .ok v_pts)
    (hs : lua_arg args 3 = some (.str s)) :
    ((vertex_array__new lib normalize args w).error? = some (.argerror 3 mode_msg)
        ↔ c_str s ∉ mode_names) ∧
    (c_str s ∉ mode_names →
      vertex_array__new lib normalize args w = .raise (.argerror 3 mode_msg) w) ∧
    (∀ inst, created (vertex_array__new lib normalize args w) = some inst →
      inst.draw_mode.name = c_str s) ∧
    (c_str s ∈ mode_names → lua_istable (lua_arg args 4) = false → v_pts.length % 3 = 0 →
      ∃ inst, created (vertex_array__new lib normalize args w) = some inst) := by
  have hstr : luaL_checkstring lib args 3 = .ok s := by simp [luaL_checkstring, hs]
  obtain ⟨hin, hout⟩ := new_of_points_and_mode lib normalize args w v_pts s hpts hstr
  refine ⟨⟨?_, ?_⟩, hout, ?_, ?_⟩
  · intro herr hmem
    obtain ⟨m, hm⟩ := (mode_names_cases _).1 hmem
    rw [hin m hm] at herr
    have := (new_finish_error _ _ _ _ _ _ _ herr).1
    simp at this
  · intro hnot
    rw [hout hnot]; rfl
  · intro inst hc
    by_cases hmem : c_str s ∈ mode_names
    · obtain ⟨m, hm⟩ := (mode_names_cases _).1 hmem
      rw [hin m hm] at hc
      rw [(new_finish_created _ _ _ _ _ _ _ hc).1, hm]
    · rw [hout hmem] at hc
      simp [created] at hc
  · intro hmem hnt hlen
    obtain ⟨m, hm⟩ := (mode_names_cases _).1 hmem
    rw [hin m hm]
    obtain ⟨inst, h1, _⟩ := (new_finish_of_color lib normalize args v_pts m
      (if m = .mode_points then point_size_world lib args w else w)).2 (default_color lib)
      (Or.inr ⟨hnt, rfl⟩) hlen
    exact ⟨inst, h1⟩

/-- C3 (amended) at the mode name "bogus_mode". -/
theorem mode_name_resolution_witness :
    ((vertex_array__new sample_lib id [.nil, .table [], .str "bogus_mode"] sample_world).error?
        = some (.argerror 3 mode_msg) ↔ c_str "bogus_mode" ∉ mode_names) ∧
    (c_str "bogus_mode" ∉ mode_names →
      vertex_array__new sample_lib id [.nil, .table [], .str "bogus_mode"] sample_world
        = .raise (.argerror 3 mode_msg) sample_world) ∧
    (∀ inst, created (vertex_array__new sample_lib id [.nil, .table [], .str "bogus_mode"]
        sample_world) = some inst → inst.draw_mode.name = c_str "bogus_mode") ∧
    (c_str "bogus_mode" ∈ mode_names →
      lua_istable (lua_arg [.nil, .table [], .str "bogus_mode"] 4) = false →
      ([] : CArray).length % 3 = 0 →
      ∃ inst, created (vertex_array__new sample_lib id [.nil, .table [], .str "bogus_mode"]
        sample_world) = some inst) :=
  mode_name_resolution sample_lib id [.nil, .table [], .str "bogus_mode"] sample_world []
    "bogus_mode" rfl rfl

/-- C3 fails as stated. The string made of "lines", a NUL byte and "x" is not
one of the four names, yet `strcmp` sees the C string "lines": the call
raises no error and returns an instance whose mode is lines. -/
theorem mode_name_with_nul_accepted :
    "lines\x00x" ∉ mode_names ∧
    (vertex_array__new sample_lib id [.nil, .table [], .str "lines\x00x"] sample_world).error?
      = none ∧
    (created (vertex_array__new sample_lib id [.nil, .table [], .str "lines\x00x"]
      sample_world)).map VertexArray.draw_mode = some .mode_lines := by
  decide

/-- C10, as the code has it. In a call whose points and mode are valid:
with no colour argument the instance has the default colour, the three
doubles 0.494, 0.349, 0.204 converted to 32-bit floats; with a table whose
first three items are numeric (r, g, b) its colour is r, g, b each converted
to a 32-bit float, with no clamping; with a table one of whose first three
items is missing or not numeric the call fails with the argument error for
argument 4 and returns no instance; a colour argument that is not a table is
ignored and the instance has the default colour. -/
theorem color_argument (lib : LuaLib) (normalize : Vec3 → Vec3) (args : List LuaValue)
    (w : World) (v_pts : CArray) (mode_str : String)
    (hpts : c_array_from_lua_array lib args 2 = .ok v_pts)
    (hlen : v_pts.length % 3 = 0)
    (hstr : luaL_checkstring lib args 3 = .ok mode_str)
    (hmode : c_str mode_str ∈ mode_names) :
    (lua_arg args 4 = none →
      ∃ inst, created (vertex_array__new lib normalize args w) = some inst ∧
        inst.color = ⟨lib.to_GLfloat (494 / 1000), lib.to_GLfloat (349 / 1000),
          lib.to_GLfloat (204 / 1000)⟩) ∧
    (∀ items r g b, lua_arg args 4 = some (.table items) →
      lua_tonumberx lib (some (lua_rawgeti items 1)) = some r →
      lua_tonumberx lib (some (lua_rawgeti items 2)) = some g →
      lua_tonumberx lib (some (lua_rawgeti items 3)) = some b →
      ∃ inst, created (vertex_array__new lib normalize args w) = some inst ∧
        inst.color = ⟨lib.to_GLfloat r, lib.to_GLfloat g, lib.to_GLfloat b⟩) ∧
    (∀ items, lua_arg args 4 = some (.table items) →
      (lua_tonumberx lib (some (lua_rawgeti items 1)) = none ∨
        lua_tonumberx lib (some (lua_rawgeti items 2)) = none ∨
        lua_tonumberx lib (some (lua_rawgeti items 3)) = none) →
      (vertex_array__new lib normalize args w).error?
          = some (.argerror 4 "Expected color to contain numeric values") ∧
        created (vertex_array__new lib normalize args w) = none) ∧
    (∀ v, lua_arg args 4 = some v → lua_istable (some v) = false →
      ∃ inst, created (vertex_array__new lib normalize args w) = some inst ∧
        (vertex_array__new lib normalize args w).error? = none ∧
        inst.color = ⟨lib.to_GLfloat (494 / 1000), lib.to_GLfloat (349 / 1000),
          lib.to_GLfloat (204 / 1000)⟩) := by
  obtain ⟨m, hm⟩ := (mode_names_cases _).1 hmode
  have hnew := (new_of_points_and_mode lib normalize args w v_pts mode_str hpts hstr).1 m hm
  rw [hnew]
  obtain ⟨hraise, hok⟩ := new_finish_of_color lib normalize args v_pts m
    (if m = .mode_points then point_size_world lib args w else w)
  refine ⟨?_, ?_, ?_, ?_⟩
  · intro h4
    obtain ⟨inst, h1, _, _, h3, _⟩ := hok (default_color lib)
      (Or.inr ⟨by simp [h4, lua_istable], rfl⟩) hlen
    exact ⟨inst, h1, h3⟩
  · intro items r g b h4 h1 h2 h3
    have hr : read_color lib items
        = .ok ⟨lib.to_GLfloat r, lib.to_GLfloat g, lib.to_GLfloat b⟩ := by
      simp [read_color, h1, h2, h3]
    obtain ⟨inst, hc, _, _, hcol, _⟩ := hok _ (Or.inl ⟨items, h4, hr⟩) hlen
    exact ⟨inst, hc, hcol⟩
  · intro items h4 hbad
    have hr : read_color lib items
        = .raise (.argerror 4 "Expected color to contain numeric values") := by
      rcases read_color_cases lib items with ⟨r, g, b, h1, h2, h3, _⟩ | ⟨_, hr⟩
      · rcases hbad with h | h | h
        · rw [h1] at h; cases h
        · rw [h2] at h; cases h
        · rw [h3] at h; cases h
      · exact hr
    rw [hraise items h4 _ hr]
    exact ⟨rfl, rfl⟩
  · intro v h4 hnt
    obtain ⟨inst, h1, h2, _, h3, _⟩ := hok (default_color lib)
      (Or.inr ⟨by rw [h4]; exact hnt, rfl⟩) hlen
    exact ⟨inst, h1, h2, h3⟩

/-- C10 (amended) at a colour table holding a number out of range, a numeric string and a number. -/
theorem color_argument_witness :
    (lua_arg [.nil, .table [], .str "lines", .table [.number 2, .str "0.5", .number 0]] 4 = none →
      ∃ inst, created (vertex_array__new sample_lib id
          [.nil, .table [], .str "lines", .table [.number 2, .str "0.5", .number 0]]
          sample_world) = some inst ∧
        inst.color = ⟨sample_lib.to_GLfloat (494 / 1000), sample_lib.to_GLfloat (349 / 1000),
          sample_lib.to_GLfloat (204 / 1000)⟩) ∧
    (∀ items r g b,
      lua_arg [.nil, .table [], .str "lines", .table [.number 2, .str "0.5", .number 0]] 4
        = some (.table items) →
      lua_tonumberx sample_lib (some (lua_rawgeti items 1)) = some r →
      lua_tonumberx sample_lib (some (lua_rawgeti items 2)) = some g →
      lua_tonumberx sample_lib (some (lua_rawgeti items 3)) = some b →
      ∃ inst, created (vertex_array__new sample_lib id
          [.nil, .table [], .str "lines", .table [.number 2, .str "0.5", .number 0]]
          sample_world) = some inst ∧
        inst.color = ⟨sample_lib.to_GLfloat r, sample_lib.to_GLfloat g,
          sample_lib.to_GLfloat b⟩) ∧
    (∀ items,
      lua_arg [.nil, .table [], .str "lines", .table [.number 2, .str "0.5", .number 0]] 4
        = some (.table items) →
      (lua_tonumberx sample_lib (some (lua_rawgeti items 1)) = none ∨
        lua_tonumberx sample_lib (some (lua_rawgeti items 2)) = none ∨
        lua_tonumberx sample_lib (some (lua_rawgeti items 3)) = none) →
      (vertex_array__new sample_lib id
          [.nil, .table [], .str "lines", .table [.number 2, .str "0.5", .number 0]]
          sample_world).error?
          = some (.argerror 4 "Expected color to contain numeric values") ∧
        created (vertex_array__new sample_lib id
          [.nil, .table [], .str "lines", .table [.number 2, .str "0.5", .number 0]]
          sample_world) = none) ∧
    (∀ v,
      lua_arg [.nil, .table [], .str "lines", .table [.number 2, .str "0.5", .number 0]] 4
        = some v →
      lua_istable (some v) = false →
      ∃ inst, created (vertex_array__new sample_lib id
          [.nil, .table [], .str "lines", .table [.number 2, .str "0.5", .number 0]]
          sample_world) = some inst ∧
        (vertex_array__new sample_lib id
          [.nil, .table [], .str "lines", .table [.number 2, .str "0.5", .number 0]]
          sample_world).error? = none ∧
        inst.color = ⟨sample_lib.to_GLfloat (494 / 1000), sample_lib.to_GLfloat (349 / 1000),
          sample_lib.to_GLfloat (204 / 1000)⟩) :=
  color_argument sample_lib id
    [.nil, .table [], .str "lines", .table [.number 2, .str "0.5", .number 0]]
    sample_world [] "lines" rfl (by decide) rfl (by decide)

/-- C10 fails as stated. With the string "red" as the colour argument the
call raises no error and returns an instance whose colour is the default one;
and with the colour table (16777217, 0, 0) the first component stored is the
float 16777216, not the number given. -/
theorem string_color_is_ignored :
    (vertex_array__new sample_lib id [.nil, .table [], .str "lines", .str "red"]
      sample_world).error? = none ∧
    (created (vertex_array__new sample_lib id [.nil, .table [], .str "lines", .str "red"]
      sample_world)).map VertexArray.color
      = some ⟨sample_lib.to_GLfloat (494 / 1000), sample_lib.to_GLfloat (349 / 1000),
          sample_lib.to_GLfloat (204 / 1000)⟩ ∧
    (created (vertex_array__new sample_lib id
        [.nil, .table [], .str "lines", .table [.number 16777217, .number 0, .number 0]]
        sample_world)).map (fun inst => inst.color.x) = some 16777216 ∧
    (16777216 : ℚ) ≠ 16777217 :=
  ⟨by decide, rfl, by decide, by decide⟩

/-- C7 fails on the code. The call with one vertex, mode "points", a colour
table whose second item is a boolean and point size 4 raises the argument
error for argument 4 and returns no instance, but `glPointSize(4)` has
already been issued. -/
theorem point_size_set_before_color_error :
    (vertex_array__new sample_lib id
        [.nil, .table [.number 0, .number 0, .number 0], .str "points",
          .table [.number 1, .boolean true, .number 0], .number 4] sample_world).error?
      = some (.argerror 4 "Expected color to contain numeric values") ∧
    created (vertex_array__new sample_lib id
        [.nil, .table [.number 0, .number 0, .number 0], .str "points",
          .table [.number 1, .boolean true, .number 0], .number 4] sample_world) = none ∧
    (vertex_array__new sample_lib id
        [.nil, .table [.number 0, .number 0, .number 0], .str "points",
          .table [.number 1, .boolean true, .number 0], .number 4] sample_world).world?
      = some (sample_world.emit [.glPointSize 4]) :=
  ⟨by decide, by decide, rfl⟩

/-- A failing `vertex_array__new` leaves the world as it found it, except
for the `glPointSize` of a "points" call with a numeric point size. -/
theorem new_raise_world (lib : LuaLib) (normalize : Vec3 → Vec3) (args : List LuaValue)
    (w w1 : World) (e : LuaError)
    (h : vertex_array__new lib normalize args w = .raise e w1) :
    w1 = w ∨ w1 = point_size_world lib args w := by
  have fin : ∀ (v_pts : CArray) (m : Mode) (w2 : World),
      new_finish lib normalize args v_pts m w2 = .raise e w1 → w1 = w2 := by
    intro v_pts m w2 h2
    have := (new_finish_error lib normalize args v_pts m w2 e (by rw [h2]; rfl)).2
    rw [h2] at this
    injection this
  unfold vertex_array__new at h
  cases h1 : luaL_checkindexable lib args 2 with
  | raise e1 => simp [h1, Checked.andThen] at h; exact Or.inl h.2.symm
  | undefined => simp [h1, Checked.andThen] at h
  | ok u =>
    cases h2 : c_array_from_lua_array lib args 2 with
    | raise e1 => simp [h1, h2, Checked.andThen] at h; exact Or.inl h.2.symm
    | undefined => simp [h1, h2, Checked.andThen] at h
    | ok v_pts =>
      cases h3 : luaL_checkstring lib args 3 with
      | raise e1 => simp [h1, h2, h3, Checked.andThen] at h; exact Or.inl h.2.symm
      | undefined => simp [h1, h2, h3, Checked.andThen] at h
      | ok mode_str =>
        simp only [h1, h2, h3, Checked.andThen] at h
        split_ifs at h
        · exact Or.inl (fin _ _ _ h)
        · exact Or.inl (fin _ _ _ h)
        · unfold point_size_world
          cases h5 : lua_tonumberx lib (lua_arg args 5) with
          | none => simp only [h5] at h; exact Or.inl (fin _ _ _ h)
          | some x => simp only [h5] at h; exact Or.inr (fin _ _ _ h)
        · exact Or.inl (fin _ _ _ h)
        · injection h with _ hw; exact Or.inl hw.symm

theorem gl_mode_lookup (m : Mode) : gl_mode[m.toNat]? = some (topology m) := by
  cases m <;> rfl

theorem override_name_none (lib : LuaLib) (v : Option LuaValue) :
    override_name lib v = none ↔ lua_isstring v = false := by
  cases v with
  | none => simp [override_name, lua_isstring]
  | some x => cases x <;> simp [override_name, lua_isstring]

/-- What `get_self_and_mode` returns for a valid instance. -/
theorem get_self_and_mode_spec (lib : LuaLib) (args : List LuaValue) (w : World) (addr : Nat)
    (inst : VertexArray)
    (hself : lua_arg args 1 = some (.userdata vertex_array_metatable addr))
    (hinst : w.heap[addr]? = some inst) :
    (override_name lib (lua_arg args 2) = none →
      get_self_and_mode lib args w = .ok (inst, topology inst.draw_mode)) ∧
    (∀ name, override_name lib (lua_arg args 2) = some name →
      (∀ m : Mode, c_str name = m.name →
        get_self_and_mode lib args w = .ok (inst, topology m)) ∧
      (c_str name ∉ mode_names →
        get_self_and_mode lib args w = .raise (.argerror 2 mode_msg))) := by
  have e1 : c_str "triangle strip" = "triangle strip" := by decide
  have e2 : c_str "triangles" = "triangles" := by decide
  have e3 : c_str "points" = "points" := by decide
  have e4 : c_str "lines" = "lines" := by decide
  have hud : luaL_checkudata args 1 vertex_array_metatable = .ok addr := by
    simp [luaL_checkudata, hself]
  constructor
  · intro hnone
    have hns := (override_name_none lib _).1 hnone
    unfold get_self_and_mode
    simp [hud, hinst, gl_mode_lookup, hns]
  · intro name hname
    have hs : lua_isstring (lua_arg args 2) = true := by
      cases h : lua_isstring (lua_arg args 2) with
      | true => rfl
      | false => rw [(override_name_none lib _).2 h] at hname; cases hname
    have hcs : luaL_checkstring lib args 2 = .ok name := by
      unfold luaL_checkstring
      cases h2 : lua_arg args 2 with
      | none => simp [h2, override_name] at hname
      | some v => cases v <;> simp [h2, override_name] at hname <;> simp [hname]
    have hunf : get_self_and_mode lib args w
        = if c_str name = "triangle strip" then .ok (inst, .GL_TRIANGLE_STRIP)
          else if c_str name = "triangles" then .ok (inst, .GL_TRIANGLES)
          else if c_str name = "points" then .ok (inst, .GL_POINTS)
          else if c_str name = "lines" then .ok (inst, .GL_LINES)
          else .raise (.argerror 2 mode_msg) := by
      unfold get_self_and_mode
      simp only [hud, hinst, gl_mode_lookup, hs, hcs, strcmp_eq_zero, e1, e2, e3, e4, if_true]
    constructor
    · intro m hm
      rw [hunf, hm]
      cases m <;> simp [Mode.name, topology]
    · intro hnot
      rw [hunf]
      simp only [mode_names, List.mem_cons, List.mem_singleton, List.mem_nil_iff, or_false,
        not_or] at hnot
      simp [hnot.1, hnot.2.1, hnot.2.2.1, hnot.2.2.2]

/-- The two draw functions in terms of `get_self_and_mode`. -/
theorem draws_of_get_self_and_mode (lib : LuaLib) (args : List LuaValue) (w : World)
    (mvp nrm : Nat) (hmvp : w.mvp_callback = some mvp)
    (hnrm : w.normal_xform_callback = some nrm) :
    (∀ inst mode, get_self_and_mode lib args w = .ok (inst, mode) →
      vertex_array__draw_without_setup lib args w
          = .ok () (w.emit (without_setup_cmds inst mode)) ∧
        vertex_array__draw lib args w = .ok () (w.emit (draw_cmds w mvp nrm inst mode))) ∧
    (∀ e, get_self_and_mode lib args w = .raise e →
      vertex_array__draw_without_setup lib args w = .raise e w ∧
        vertex_array__draw lib args w = .raise e w) := by
  constructor
  · intro inst mode h
    simp [vertex_array__draw_without_setup, vertex_array__draw, h, Checked.andThen, hmvp, hnrm,
      without_setup_cmds, draw_cmds]
  · intro e h
    simp [vertex_array__draw_without_setup, vertex_array__draw, h, Checked.andThen]

/-- The outcome of the two draw functions for a valid instance, by the kind
of the second argument. -/
theorem draw_outcomes (lib : LuaLib) (args : List LuaValue) (w : World) (addr : Nat)
    (inst : VertexArray) (mvp nrm : Nat)
    (hself : lua_arg args 1 = some (.userdata vertex_array_metatable addr))
    (hinst : w.heap[addr]? = some inst)
    (hmvp : w.mvp_callback = some mvp) (hnrm : w.normal_xform_callback = some nrm) :
    (lua_isstring (lua_arg args 2) = false →
      vertex_array__draw_without_setup lib args w
          = .ok () (w.emit (without_setup_cmds inst (topology inst.draw_mode))) ∧
        vertex_array__draw lib args w
          = .ok () (w.emit (draw_cmds w mvp nrm inst (topology inst.draw_mode)))) ∧
    (∀ name, override_name lib (lua_arg args 2) = some name → ∀ m : Mode, c_str name = m.name →
      vertex_array__draw_without_setup lib args w
          = .ok () (w.emit (without_setup_cmds inst (topology m))) ∧
        vertex_array__draw lib args w
          = .ok () (w.emit (draw_cmds w mvp nrm inst (topology m)))) ∧
    (∀ name, override_name lib (lua_arg args 2) = some name → c_str name ∉ mode_names →
      vertex_array__draw_without_setup lib args w = .raise (.argerror 2 mode_msg) w ∧
        vertex_array__draw lib args w = .raise (.argerror 2 mode_msg) w) := by
  obtain ⟨hdef, hover⟩ := get_self_and_mode_spec lib args w addr inst hself hinst
  obtain ⟨hok, hraise⟩ := draws_of_get_self_and_mode lib args w mvp nrm hmvp hnrm
  exact ⟨fun hns => hok _ _ (hdef ((override_name_none lib _).2 hns)),
    fun name hname m hm => hok _ _ ((hover name hname).1 m hm),
    fun name hname hnot => hraise _ ((hover name hname).2 hnot)⟩

/-- C5, as the code has it. For a valid instance, with both callbacks
registered: when the second argument is neither a string nor a number
(`lua_isstring` is false: nil, absent, boolean, table, userdata) both draw
functions return without error and draw with the stored mode; when it is a
string or a number, the name compared is the C string of the string or of the
numeral, a recognised name overrides the mode, and any other name raises the
argument error for argument 2 with nothing drawn; no other error is raised. -/
theorem override_validation (lib : LuaLib) (args : List LuaValue) (w : World) (addr : Nat)
    (inst : VertexArray) (mvp nrm : Nat)
    (hself : lua_arg args 1 = some (.userdata vertex_array_metatable addr))
    (hinst : w.heap[addr]? = some inst)
    (hmvp : w.mvp_callback = some mvp) (hnrm : w.normal_xform_callback = some nrm) :
    (lua_isstring (lua_arg args 2) = false →
      vertex_array__draw_without_setup lib args w
          = .ok () (w.emit (without_setup_cmds inst (topology inst.draw_mode))) ∧
        vertex_array__draw lib args w
          = .ok () (w.emit (draw_cmds w mvp nrm inst (topology inst.draw_mode)))) ∧
    (∀ name, override_name lib (lua_arg args 2) = some name → ∀ m : Mode, c_str name = m.name →
      vertex_array__draw_without_setup lib args w
          = .ok () (w.emit (without_setup_cmds inst (topology m))) ∧
        vertex_array__draw lib args w
          = .ok () (w.emit (draw_cmds w mvp nrm inst (topology m)))) ∧
    (∀ name, override_name lib (lua_arg args 2) = some name → c_str name ∉ mode_names →
      vertex_array__draw_without_setup lib args w = .raise (.argerror 2 mode_msg) w ∧
        vertex_array__draw lib args w = .raise (.argerror 2 mode_msg) w) ∧
    (∀ e, ((vertex_array__draw_without_setup lib args w).error? = some e ∨
        (vertex_array__draw lib args w).error? = some e) →
      e = .argerror 2 mode_msg ∧
        ∃ name, override_name lib (lua_arg args 2) = some name ∧ c_str name ∉ mode_names) := by
  obtain ⟨c1, c2, c3⟩ := draw_outcomes lib args w addr inst mvp nrm hself hinst hmvp hnrm
  refine ⟨c1, c2, c3, ?_⟩
  intro e he
  cases hn : override_name lib (lua_arg args 2) with
  | none =>
    obtain ⟨h1, h2⟩ := c1 ((override_name_none lib _).1 hn)
    rw [h1, h2] at he
    simp [Outcome.error?] at he
  | some name =>
    by_cases hmem : c_str name ∈ mode_names
    · obtain ⟨m, hm⟩ := (mode_names_cases _).1 hmem
      obtain ⟨h1, h2⟩ := c2 name hn m hm
      rw [h1, h2] at he
      simp [Outcome.error?] at he
    · obtain ⟨h1, h2⟩ := c3 name hn hmem
      rw [h1, h2] at he
      simp only [Outcome.error?, Option.some.injEq, or_self] at he
      exact ⟨he.symm, name, rfl, hmem⟩

/-- C5 (amended) at a boolean override. -/
theorem override_validation_witness :
    (lua_isstring (lua_arg [.userdata vertex_array_metatable 0, .boolean true] 2) = false →
      vertex_array__draw_without_setup sample_lib
          [.userdata vertex_array_metatable 0, .boolean true] sample_world
          = .ok () (sample_world.emit
              (without_setup_cmds sample_instance (topology sample_instance.draw_mode))) ∧
        vertex_array__draw sample_lib [.userdata vertex_array_metatable 0, .boolean true]
            sample_world
          = .ok () (sample_world.emit
              (draw_cmds sample_world 7 8 sample_instance
                (topology sample_instance.draw_mode)))) ∧
    (∀ name,
      override_name sample_lib (lua_arg [.userdata vertex_array_metatable 0, .boolean true] 2)
        = some name →
      ∀ m : Mode, c_str name = m.name →
      vertex_array__draw_without_setup sample_lib
          [.userdata vertex_array_metatable 0, .boolean true] sample_world
          = .ok () (sample_world.emit (without_setup_cmds sample_instance (topology m))) ∧
        vertex_array__draw sample_lib [.userdata vertex_array_metatable 0, .boolean true]
            sample_world
          = .ok () (sample_world.emit (draw_cmds sample_world 7 8 sample_instance (topology m)))) ∧
    (∀ name,
      override_name sample_lib (lua_arg [.userdata vertex_array_metatable 0, .boolean true] 2)
        = some name →
      c_str name ∉ mode_names →
      vertex_array__draw_without_setup sample_lib
          [.userdata vertex_array_metatable 0, .boolean true] sample_world
          = .raise (.argerror 2 mode_msg) sample_world ∧
        vertex_array__draw sample_lib [.userdata vertex_array_metatable 0, .boolean true]
            sample_world
          = .raise (.argerror 2 mode_msg) sample_world) ∧
    (∀ e,
      ((vertex_array__draw_without_setup sample_lib
          [.userdata vertex_array_metatable 0, .boolean true] sample_world).error? = some e ∨
        (vertex_array__draw sample_lib [.userdata vertex_array_metatable 0, .boolean true]
          sample_world).error? = some e) →
      e = .argerror 2 mode_msg ∧
        ∃ name,
          override_name sample_lib
            (lua_arg [.userdata vertex_array_metatable 0, .boolean true] 2) = some name ∧
          c_str name ∉ mode_names) :=
  override_validation sample_lib [.userdata vertex_array_metatable 0, .boolean true]
    sample_world 0 sample_instance 7 8 rfl rfl rfl rfl

/-- C5 fails as stated. A number is not a string, yet `lua_isstring` accepts
it: with the number 0 as the second argument both draw functions raise the
argument error for argument 2. -/
theorem number_override_raises :
    lua_arg [.userdata vertex_array_metatable 0, .number 0] 2 = some (.number 0) ∧
    (vertex_array__draw_without_setup sample_lib
        [.userdata vertex_array_metatable 0, .number 0] sample_world).error?
      = some (.argerror 2 mode_msg) ∧
    (vertex_array__draw sample_lib
        [.userdata vertex_array_metatable 0, .number 0] sample_world).error?
      = some (.argerror 2 mode_msg) :=
  ⟨rfl, by decide, by decide⟩

/-- With self pointing into the heap, `get_self_and_mode` is defined. -/
theorem get_self_and_mode_total (lib : LuaLib) (args : List LuaValue) (w : World)
    (h : ∀ addr, lua_arg args 1 = some (.userdata vertex_array_metatable addr) →
      addr < w.heap.length) :
    (∃ r, get_self_and_mode lib args w = .ok r) ∨
      (∃ e, get_self_and_mode lib args w = .raise e) := by
  by_cases hs : ∃ addr, lua_arg args 1 = some (.userdata vertex_array_metatable addr)
  · obtain ⟨addr, hself⟩ := hs
    have hlt := h addr hself
    obtain ⟨hdef, hover⟩ := get_self_and_mode_spec lib args w addr w.heap[addr] hself
      (List.getElem?_eq_getElem hlt)
    cases hn : override_name lib (lua_arg args 2) with
    | none => exact Or.inl ⟨_, hdef hn⟩
    | some name =>
      by_cases hmem : c_str name ∈ mode_names
      · obtain ⟨m, hm⟩ := (mode_names_cases _).1 hmem
        exact Or.inl ⟨_, (hover name hn).1 m hm⟩
      · exact Or.inr ⟨_, (hover name hn).2 hmem⟩
  · right
    unfold get_self_and_mode luaL_checkudata
    cases h1 : lua_arg args 1 with
    | none => exact ⟨_, rfl⟩
    | some v =>
      cases v with
      | userdata t addr =>
        by_cases ht : t = vertex_array_metatable
        · exact absurd ⟨addr, by rw [h1, ht]⟩ hs
        · simp only [ht, if_false]; exact ⟨_, rfl⟩
      | _ => exact ⟨_, rfl⟩

/-- One call in a world with both callbacks registered either returns having
only appended commands, or raises leaving the world as it was. -/
theorem call_run_frame (lib : LuaLib) (c : Call) (w : World) (mvp nrm : Nat)
    (hmvp : w.mvp_callback = some mvp) (hnrm : w.normal_xform_callback = some nrm)
    (hc : c.self_in_heap w = true) :
    (∃ cmds, c.run lib w = .ok () (w.emit cmds)) ∨ (∃ e, c.run lib w = .raise e w) := by
  have hheap : ∀ args, (match lua_arg args 1 with
      | some (.userdata t addr) => decide (t = vertex_array_metatable → addr < w.heap.length)
      | _ => true) = true →
      ∀ addr, lua_arg args 1 = some (.userdata vertex_array_metatable addr) →
        addr < w.heap.length := by
    intro args hm addr ha
    simpa [ha] using hm
  cases c with
  | setup_drawing =>
    left
    refine ⟨[.glUseProgram w.program, .call_mvp_callback mvp w.mvp_loc,
      .call_normal_xform_callback nrm w.normal_xform_loc], ?_⟩
    simp [Call.run, vertex_array__setup_drawing, hmvp, hnrm]
  | draw args =>
    obtain ⟨hok, hraise⟩ := draws_of_get_self_and_mode lib args w mvp nrm hmvp hnrm
    rcases get_self_and_mode_total lib args w (hheap args hc) with ⟨⟨inst, mode⟩, hg⟩ | ⟨e, hg⟩
    · left; exact ⟨_, (hok inst mode hg).2⟩
    · right; exact ⟨e, (hraise e hg).2⟩
  | draw_without_setup args =>
    obtain ⟨hok, hraise⟩ := draws_of_get_self_and_mode lib args w mvp nrm hmvp hnrm
    rcases get_self_and_mode_total lib args w (hheap args hc) with ⟨⟨inst, mode⟩, hg⟩ | ⟨e, hg⟩
    · left; exact ⟨_, (hok inst mode hg).1⟩
    · right; exact ⟨e, (hraise e hg).1⟩

theorem emit_emit (w : World) (a b : List GLCmd) : (w.emit a).emit b = w.emit (a ++ b) := by
  simp [World.emit]

theorem emit_nil (w : World) : w.emit [] = w := by
  simp [World.emit]

/-- A protected sequence of calls only appends commands to the trace. -/
theorem run_calls_frame (lib : LuaLib) (mvp nrm : Nat) (calls : List Call) :
    ∀ w : World, w.mvp_callback = some mvp → w.normal_xform_callback = some nrm →
      (∀ c ∈ calls, c.self_in_heap w = true) →
      ∃ errs cmds, run_calls lib calls w = some (errs, w.emit cmds) := by
  induction calls with
  | nil => intro w _ _ _; exact ⟨[], [], by simp [run_calls, emit_nil]⟩
  | cons c rest ih =>
    intro w hmvp hnrm hall
    have hrest : ∀ cmds, ∀ c1 ∈ rest, c1.self_in_heap (w.emit cmds) = true := by
      intro cmds c1 hc1
      have := hall c1 (List.mem_cons_of_mem _ hc1)
      cases c1 <;> simp [Call.self_in_heap, World.emit] at this ⊢ <;> exact this
    rcases call_run_frame lib c w mvp nrm hmvp hnrm (hall c (List.mem_cons_self _ _)) with
      ⟨cmds, hrun⟩ | ⟨e, hrun⟩
    · obtain ⟨errs, cmds1, h1⟩ := ih (w.emit cmds) hmvp hnrm (hrest cmds)
      refine ⟨errs, cmds ++ cmds1, ?_⟩
      simp only [run_calls, hrun, h1, emit_emit]
    · obtain ⟨errs, cmds1, h1⟩ := ih w hmvp hnrm (fun c1 hc1 => hall c1 (List.mem_cons_of_mem _ hc1))
      refine ⟨e :: errs, cmds1, ?_⟩
      simp only [run_calls, hrun, h1, Option.map_some']

/-- C4. In a world with both callbacks registered, after any sequence of
protected calls of `draw`, `draw_without_setup` and `setup_drawing` with any
arguments (any override: a valid name, an invalid one, none), the sequence has
run to its end, the world differs from the initial one only by commands
appended to the trace, so every instance is stored unchanged, and a draw with
no override of any instance issues `glDrawArrays` with the topology of its
stored mode, offset 0 and its `num_pts`. -/
theorem override_is_call_scoped (lib : LuaLib) (mvp nrm : Nat) (calls : List Call) (w : World)
    (hmvp : w.mvp_callback = some mvp) (hnrm : w.normal_xform_callback = some nrm)
    (hall : ∀ c ∈ calls, c.self_in_heap w = true) :
    ∃ errs w1, run_calls lib calls w = some (errs, w1) ∧
      (∃ cmds, w1 = w.emit cmds) ∧ w1.heap = w.heap ∧
      ∀ addr inst, w.heap[addr]? = some inst →
        vertex_array__draw lib [.userdata vertex_array_metatable addr] w1
            = .ok () (w1.emit (draw_cmds w mvp nrm inst (topology inst.draw_mode))) ∧
          vertex_array__draw_without_setup lib [.userdata vertex_array_metatable addr] w1
            = .ok () (w1.emit (without_setup_cmds inst (topology inst.draw_mode))) := by
  obtain ⟨errs, cmds, hrun⟩ := run_calls_frame lib mvp nrm calls w hmvp hnrm hall
  refine ⟨errs, w.emit cmds, hrun, ⟨cmds, rfl⟩, rfl, ?_⟩
  intro addr inst hinst
  have h := (draw_outcomes lib [.userdata vertex_array_metatable addr] (w.emit cmds)
    addr inst mvp nrm rfl hinst hmvp hnrm).1 rfl
  exact ⟨h.2, h.1⟩

/-- C4 at a draw overridden with "lines" followed by a draw with an invalid override. -/
theorem override_is_call_scoped_witness :
    ∃ errs w1,
      run_calls sample_lib
        [.draw [.userdata vertex_array_metatable 0, .str "lines"],
         .draw_without_setup [.userdata vertex_array_metatable 0, .str "bogus_mode"]]
        sample_world = some (errs, w1) ∧
      (∃ cmds, w1 = sample_world.emit cmds) ∧ w1.heap = sample_world.heap ∧
      ∀ addr inst, sample_world.heap[addr]? = some inst →
        vertex_array__draw sample_lib [.userdata vertex_array_metatable addr] w1
            = .ok () (w1.emit (draw_cmds sample_world 7 8 inst (topology inst.draw_mode))) ∧
          vertex_array__draw_without_setup sample_lib [.userdata vertex_array_metatable addr] w1
            = .ok () (w1.emit (without_setup_cmds inst (topology inst.draw_mode))) :=
  override_is_call_scoped sample_lib 7 8
    [.draw [.userdata vertex_array_metatable 0, .str "lines"],
     .draw_without_setup [.userdata vertex_array_metatable 0, .str "bogus_mode"]]
    sample_world rfl rfl (by decide)

theorem c_str_mode_name (m : Mode) : c_str m.name = m.name := by
  cases m <;> decide

theorem draw_batch_run (lib : LuaLib) (mvp nrm : Nat) (w : World)
    (hmvp : w.mvp_callback = some mvp) (hnrm : w.normal_xform_callback = some nrm)
    (items : List (Nat × Option Mode)) :
    (∀ it ∈ items, it.1 < w.heap.length) →
    ∀ pre : List GLCmd,
      run_calls lib (items.map fun it => .draw_without_setup (draw_args it.1 it.2)) (w.emit pre)
        = some ([], w.emit (pre ++ batch_cmds w items)) := by
  induction items with
  | nil => intro _ pre; simp [run_calls, batch_cmds]
  | cons it rest ih =>
    intro hin pre
    have hlt := hin it (List.mem_cons_self _ _)
    have hinst : (w.emit pre).heap[it.1]? = some w.heap[it.1] := List.getElem?_eq_getElem hlt
    have hstep : vertex_array__draw_without_setup lib (draw_args it.1 it.2) (w.emit pre)
        = .ok () ((w.emit pre).emit
            (without_setup_cmds w.heap[it.1] (topology (it.2.getD w.heap[it.1].draw_mode)))) := by
      cases ho : it.2 with
      | none =>
        exact ((draw_outcomes lib (draw_args it.1 none) (w.emit pre) it.1 _ mvp nrm
          rfl hinst hmvp hnrm).1 rfl).1
      | some m =>
        exact ((draw_outcomes lib (draw_args it.1 (some m)) (w.emit pre) it.1 _ mvp nrm
          rfl hinst hmvp hnrm).2.1 m.name rfl m (c_str_mode_name m)).1
    have hb : batch_cmds w (it :: rest)
        = without_setup_cmds w.heap[it.1] (topology (it.2.getD w.heap[it.1].draw_mode))
          ++ batch_cmds w rest := by
      simp [batch_cmds, List.getElem?_eq_getElem hlt]
    simp only [List.map_cons, run_calls, Call.run, hstep, emit_emit]
    rw [ih (fun it1 h1 => hin it1 (List.mem_cons_of_mem _ h1)), hb, List.append_assoc]

theorem batch_cmds_counts (w : World) (items : List (Nat × Option Mode))
    (hin : ∀ it ∈ items, it.1 < w.heap.length) :
    ((batch_cmds w items).filter GLCmd.is_activation).length = 0 ∧
    ((batch_cmds w items).filter GLCmd.is_mvp_call).length = 0 ∧
    ((batch_cmds w items).filter GLCmd.is_normal_call).length = 0 ∧
    ((batch_cmds w items).filter GLCmd.is_draw).length = items.length := by
  induction items with
  | nil => simp [batch_cmds]
  | cons it rest ih =>
    have hlt := hin it (List.mem_cons_self _ _)
    have hb : batch_cmds w (it :: rest)
        = without_setup_cmds w.heap[it.1] (topology (it.2.getD w.heap[it.1].draw_mode))
          ++ batch_cmds w rest := by
      simp [batch_cmds, List.getElem?_eq_getElem hlt]
    obtain ⟨h1, h2, h3, h4⟩ := ih (fun it1 h1 => hin it1 (List.mem_cons_of_mem _ h1))
    rw [hb]
    simp only [List.filter_append, List.length_append, h1, h2, h3, h4]
    simp [without_setup_cmds, List.filter, GLCmd.is_activation, GLCmd.is_mvp_call,
      GLCmd.is_normal_call, GLCmd.is_draw]
    omega

/-- C9. In a world with both callbacks registered, `setup_drawing` followed
by `draw_without_setup` on each of N instances in turn (each with no override
or a recognised name) raises no error, and the commands it appends are: the
program activation, one call of each callback, then for the i-th instance the
binding of its own vertex array followed by `glDrawArrays` with offset 0 and
its own `num_pts`. So there is one activation, one call of each callback and
N draw commands. A `draw_without_setup` call, whatever its arguments, appends
no activation and no callback call. -/
theorem batched_drawing_trace (lib : LuaLib) (mvp nrm : Nat) (w : World)
    (items : List (Nat × Option Mode))
    (hmvp : w.mvp_callback = some mvp) (hnrm : w.normal_xform_callback = some nrm)
    (hin : ∀ it ∈ items, it.1 < w.heap.length) :
    ∃ cmds,
      run_calls lib
          (.setup_drawing :: items.map fun it => .draw_without_setup (draw_args it.1 it.2)) w
        = some ([], w.emit cmds) ∧
      cmds = [.glUseProgram w.program, .call_mvp_callback mvp w.mvp_loc,
              .call_normal_xform_callback nrm w.normal_xform_loc]
             ++ items.flatMap (fun it =>
                  match w.heap[it.1]? with
                  | some inst =>
                    [.glBindVertexArray inst.vao,
                     .glDrawArrays (topology (it.2.getD inst.draw_mode)) 0 inst.num_pts]
                  | none => []) ∧
      (cmds.filter GLCmd.is_activation).length = 1 ∧
      (cmds.filter GLCmd.is_mvp_call).length = 1 ∧
      (cmds.filter GLCmd.is_normal_call).length = 1 ∧
      (cmds.filter GLCmd.is_draw).length = items.length ∧
      ∀ args w2 w3, (vertex_array__draw_without_setup lib args w2).world? = some w3 →
        ∃ more, w3 = w2.emit more ∧
          ∀ c ∈ more, c.is_activation = false ∧ c.is_mvp_call = false ∧
            c.is_normal_call = false := by
  have hsetup : vertex_array__setup_drawing w
      = .ok () (w.emit [.glUseProgram w.program, .call_mvp_callback mvp w.mvp_loc,
          .call_normal_xform_callback nrm w.normal_xform_loc]) := by
    simp [vertex_array__setup_drawing, hmvp, hnrm]
  obtain ⟨h1, h2, h3, h4⟩ := batch_cmds_counts w items hin
  refine ⟨[.glUseProgram w.program, .call_mvp_callback mvp w.mvp_loc,
      .call_normal_xform_callback nrm w.normal_xform_loc] ++ batch_cmds w items,
    ?_, rfl, ?_, ?_, ?_, ?_, ?_⟩
  · simp only [run_calls, Call.run, hsetup]
    exact draw_batch_run lib mvp nrm w hmvp hnrm items hin _
  · rw [List.filter_append, List.length_append, h1]; rfl
  · rw [List.filter_append, List.length_append, h2]; rfl
  · rw [List.filter_append, List.length_append, h3]; rfl
  · rw [List.filter_append, List.length_append, h4]
    simp [List.filter, GLCmd.is_draw]
  · intro args w2 w3 hw
    unfold vertex_array__draw_without_setup at hw
    cases hg : get_self_and_mode lib args w2 with
    | ok r =>
      obtain ⟨inst, mode⟩ := r
      simp only [hg, Checked.andThen, Outcome.world?, Option.some.injEq] at hw
      refine ⟨_, hw.symm, ?_⟩
      intro c hc
      simp only [List.mem_cons, List.mem_singleton, List.mem_nil_iff, or_false] at hc
      rcases hc with rfl | rfl <;> exact ⟨rfl, rfl, rfl⟩
    | raise e =>
      simp only [hg, Checked.andThen, Outcome.world?, Option.some.injEq] at hw
      exact ⟨[], by rw [emit_nil]; exact hw.symm, by simp⟩
    | undefined => simp [hg, Checked.andThen, Outcome.world?] at hw

/-- C9 at a batch of two draws of the sample instance, the second overridden with "lines". -/
theorem batched_drawing_trace_witness :
    ∃ cmds,
      run_calls sample_lib
          (.setup_drawing :: [(0, none), (0, some Mode.mode_lines)].map
            fun it => .draw_without_setup (draw_args it.1 it.2)) sample_world
        = some ([], sample_world.emit cmds) ∧
      cmds = [.glUseProgram sample_world.program, .call_mvp_callback 7 sample_world.mvp_loc,
              .call_normal_xform_callback 8 sample_world.normal_xform_loc]
             ++ [(0, none), (0, some Mode.mode_lines)].flatMap (fun it =>
                  match sample_world.heap[it.1]? with
                  | some inst =>
                    [.glBindVertexArray inst.vao,
                     .glDrawArrays (topology (it.2.getD inst.draw_mode)) 0 inst.num_pts]
                  | none => []) ∧
      (cmds.filter GLCmd.is_activation).length = 1 ∧
      (cmds.filter GLCmd.is_mvp_call).length = 1 ∧
      (cmds.filter GLCmd.is_normal_call).length = 1 ∧
      (cmds.filter GLCmd.is_draw).length = [(0, none), (0, some Mode.mode_lines)].length ∧
      ∀ args w2 w3,
        (vertex_array__draw_without_setup sample_lib args w2).world? = some w3 →
        ∃ more, w3 = w2.emit more ∧
          ∀ c ∈ more, c.is_activation = false ∧ c.is_mvp_call = false ∧
            c.is_normal_call = false :=
  batched_drawing_trace sample_lib 7 8 sample_world [(0, none), (0, some Mode.mode_lines)]
    rfl rfl (by decide)

end Trees
